import Mathlib

/-!
Verification of the gesture-to-camera-control pipeline: a shallow embedding
of the hand-gesture subsystem (One-Euro signal filter, finger-gesture
recognizer, mode state machine, gesture engine, camera mapper) with numeric
values idealised as exact rationals.

Modelling conventions, stated once:
* JavaScript `number` (IEEE-754 double) arithmetic is idealised as exact
  arithmetic on `ℚ`.
* `Math.PI` is embedded as the exact rational value of the IEEE-754 double
  constant (`mathPI` below).
* `Math.sqrt` is embedded as `qsqrt`, a rational square root that is exact on
  squares of rationals (every concrete input used in this development produces
  only such values at the points where a square root's value matters).
* `performance.now()` reads of an ambient monotonic clock become an explicit
  `now` parameter of the operation that performs the read.
* `eventBus.emit('voiceListenToggle', …)` is embedded as appending the
  emission timestamp to an `events` list carried in the engine state.
* the source field name `initialized` is rendered `inited`.
-/

/-- Exact rational value of the IEEE-754 double `Math.PI`
(3.141592653589793… = 884279719003555 / 2^48). -/
def mathPI : ℚ := 884279719003555 / 281474976710656

/-- Embedding of `Math.sqrt` on `ℚ`: for `q = n/d` in lowest terms,
`sqrt (n/d) = sqrt (n*d) / d`, with `Nat.sqrt` (floor square root) on the
numerator; exact whenever `q` is the square of a rational, and in particular
`qsqrt 0 = 0`, `qsqrt q ≥ 0`. -/
def qsqrt (q : ℚ) : ℚ := (Nat.sqrt (q.num.toNat * q.den) : ℚ) / (q.den : ℚ)

/-! ## One Euro Filter (src filters/one-euro.ts, `OneEuroFilter`) -/

/-- State and parameters of `OneEuroFilter`: `x_prev`, `dx_prev`, `t_prev`,
`initialized` (here `inited`), and the constructor parameters
`minCutoff`, `beta`, `dCutoff`. -/
structure OneEuroFilter where
  x_prev : ℚ
  dx_prev : ℚ
  t_prev : ℚ
  inited : Bool
  minCutoff : ℚ
  beta : ℚ
  dCutoff : ℚ
deriving DecidableEq

/-- The constructor `new OneEuroFilter(minCutoff, beta, dCutoff)`. -/
def mkOneEuro (minCutoff beta dCutoff : ℚ) : OneEuroFilter :=
  ⟨0, 0, 0, false, minCutoff, beta, dCutoff⟩

/-- `lowPass(x, x_prev, alpha) = alpha * x + (1 - alpha) * x_prev`. -/
def lowPass (x x_prev alpha : ℚ) : ℚ := alpha * x + (1 - alpha) * x_prev

/-- `alpha(dt, cutoff)`: `tau = 1 / (2π·cutoff)`, `alpha = 1 / (1 + tau/dt)`. -/
def euroAlpha (dt cutoff : ℚ) : ℚ :=
  let tau := 1 / (2 * mathPI * cutoff)
  1 / (1 + tau / dt)

/-- `OneEuroFilter.filter(x, t)`: returns the filtered value together with the
updated filter state (the source mutates `this`). -/
def OneEuroFilter.filter (f : OneEuroFilter) (x t : ℚ) : ℚ × OneEuroFilter :=
  if f.inited = false then
    (x, { f with x_prev := x, t_prev := t, inited := true })
  else
    let dt := t - f.t_prev
    if dt ≤ 0 then
      (f.x_prev, f)
    else
      let dx := (x - f.x_prev) / dt
      let dx_filtered := lowPass dx f.dx_prev (euroAlpha dt f.dCutoff)
      let cutoff := f.minCutoff + f.beta * |dx_filtered|
      let x_filtered := lowPass x f.x_prev (euroAlpha dt cutoff)
      (x_filtered, { f with x_prev := x_filtered, dx_prev := dx_filtered, t_prev := t })

/-- `OneEuroFilter.reset()`. -/
def OneEuroFilter.reset (f : OneEuroFilter) : OneEuroFilter :=
  { f with inited := false, x_prev := 0, dx_prev := 0, t_prev := 0 }

/-- The `GestureFilter` facade: a pinch filter plus a 3-dimensional
`OneEuroFilterVector` for (yaw, pitch, roll), modelled as its three component
scalar filters. -/
structure GestureFilter where
  pinchFilter : OneEuroFilter
  yawFilter : OneEuroFilter
  pitchFilter : OneEuroFilter
  rollFilter : OneEuroFilter
deriving DecidableEq

/-- The `GestureFilter` constructor with its channel defaults. -/
def GestureFilter.init : GestureFilter :=
  ⟨mkOneEuro 1.2 0.01 1, mkOneEuro 0.8 0.007 1, mkOneEuro 0.8 0.007 1,
   mkOneEuro 0.8 0.007 1⟩

/-- `GestureFilter.filterPinch(pinch, t)`. -/
def GestureFilter.filterPinch (g : GestureFilter) (pinch t : ℚ) : ℚ × GestureFilter :=
  let r := g.pinchFilter.filter pinch t
  (r.1, { g with pinchFilter := r.2 })

/-- `GestureFilter.filterOrientation(yaw, pitch, roll, t)`: one independent
scalar filter per dimension. -/
def GestureFilter.filterOrientation (g : GestureFilter) (yaw pitch roll t : ℚ) :
    (ℚ × ℚ × ℚ) × GestureFilter :=
  let ry := g.yawFilter.filter yaw t
  let rp := g.pitchFilter.filter pitch t
  let rr := g.rollFilter.filter roll t
  ((ry.1, rp.1, rr.1),
   { g with yawFilter := ry.2, pitchFilter := rp.2, rollFilter := rr.2 })

/-- `GestureFilter.reset()` resets every channel filter. -/
def GestureFilter.reset (g : GestureFilter) : GestureFilter :=
  ⟨g.pinchFilter.reset, g.yawFilter.reset, g.pitchFilter.reset, g.rollFilter.reset⟩

/-! ## Mode state machine (src gesture-engine.ts, `GestureStateMachine`) -/

/-- The interaction modes. -/
inductive GestureMode where
  | Idle
  | Zoom
  | Orbit
deriving DecidableEq

/-- State of `GestureStateMachine`: `currentMode`, `modeTimer` (ms) and
`lastTransition` (a `performance.now()` timestamp, ms). -/
structure GestureStateMachine where
  currentMode : GestureMode
  modeTimer : ℚ
  lastTransition : ℚ
deriving DecidableEq

/-- `GestureStateMachine.determineMode`: priority Zoom > Orbit > Idle, with
pinch threshold 0.4. -/
def determineMode (pinch : ℚ) (palmActive : Bool) : GestureMode :=
  if pinch > 0.4 then .Zoom
  else if palmActive then .Orbit
  else .Idle

/-- `GestureStateMachine.update(pinch, palmActive, dt)`; `now` is the value the
source reads from `performance.now()` during the call.  ENTER_DELAY = 80,
EXIT_DELAY = 120, MIN_MODE_DURATION = 100 (ms). -/
def GestureStateMachine.update (sm : GestureStateMachine) (pinch : ℚ)
    (palmActive : Bool) (dt now : ℚ) : GestureMode × GestureStateMachine :=
  let sm := { sm with modeTimer := sm.modeTimer + dt }
  if now - sm.lastTransition < 100 then
    (sm.currentMode, sm)
  else
    let newMode := determineMode pinch palmActive
    if newMode ≠ sm.currentMode then
      let requiredDelay : ℚ := if sm.currentMode = .Idle then 80 else 120
      if sm.modeTimer ≥ requiredDelay then
        (newMode, ⟨newMode, 0, now⟩)
      else
        (sm.currentMode, sm)
    else
      (sm.currentMode, { sm with modeTimer := 0 })

/-- `GestureStateMachine.reset()`. -/
def GestureStateMachine.reset (_sm : GestureStateMachine) : GestureStateMachine :=
  ⟨.Idle, 0, 0⟩

/-! ## Finger-gesture recognizer (src gesture-recognizer.ts, `GestureRecognizer`) -/

/-- One normalized MediaPipe landmark. -/
structure Landmark where
  x : ℚ
  y : ℚ
  z : ℚ
deriving DecidableEq

/-- A detected hand: the source receives an array of landmarks (21 when the
detector reports a full hand). -/
abbrev Hand := List Landmark

/-- The discrete finger gestures. -/
inductive FingerGesture where
  | open_palm
  | closed_fist
  | one_finger
  | two_fingers
  | unknown
deriving DecidableEq

/-- `FingerGestureState`. -/
structure FingerGestureState where
  gesture : FingerGesture
  fingerCount : Nat
  confidence : ℚ
  isHandVisible : Bool
deriving DecidableEq

/-- `landmarks[i]`: after the length guards of the source every access is in
range, so an out-of-range default is never observable. -/
def lmAt (h : Hand) (i : Nat) : Landmark := h.getD i ⟨0, 0, 0⟩

/-- Thumb branch of `countExtendedFingers` (index 0): the thumb is extended if
its tip is farther from the palm center (midpoint of landmarks 5 and 17) than
its MCP is, by a factor 1.2. -/
def thumbExtended (h : Hand) : Bool :=
  let tip := lmAt h 4
  let mcp := lmAt h 2
  let pcx := ((lmAt h 5).x + (lmAt h 17).x) / 2
  let pcy := ((lmAt h 5).y + (lmAt h 17).y) / 2
  let thumbToPalm := qsqrt ((tip.x - pcx) ^ 2 + (tip.y - pcy) ^ 2)
  let mcpToPalm := qsqrt ((mcp.x - pcx) ^ 2 + (mcp.y - pcy) ^ 2)
  decide (thumbToPalm > mcpToPalm * 1.2)

/-- Non-thumb branch of `countExtendedFingers`: curl test (angle between the
MCP→PIP and PIP→TIP segments and a tip-above-MCP height check), with a
tip-significantly-above-PIP fallback. -/
def fingerExtended (h : Hand) (tipI pipI mcpI : Nat) : Bool :=
  let tip := lmAt h tipI
  let pip := lmAt h pipI
  let mcp := lmAt h mcpI
  let mtpX := pip.x - mcp.x
  let mtpY := pip.y - mcp.y
  let pttX := tip.x - pip.x
  let pttY := tip.y - pip.y
  let dotProduct := mtpX * pttX + mtpY * pttY
  let mcpPipLength := qsqrt (mtpX ^ 2 + mtpY ^ 2)
  let pipTipLength := qsqrt (pttX ^ 2 + pttY ^ 2)
  let ext0 : Bool :=
    if mcpPipLength > 0 ∧ pipTipLength > 0 then
      let cosAngle := dotProduct / (mcpPipLength * pipTipLength)
      decide (tip.y < mcp.y * 1.05) && decide (cosAngle > 0.5)
    else
      false
  if ext0 then true
  else decide (pip.y - tip.y > |pip.y - mcp.y| * 0.3)

/-- `GestureRecognizer.countExtendedFingers`: returns 0 for a hand with fewer
than 21 landmarks, otherwise counts the five digits. -/
def countExtendedFingers (h : Hand) : Nat :=
  if h.length < 21 then 0
  else
    (if thumbExtended h then 1 else 0) +
    (if fingerExtended h 8 6 5 then 1 else 0) +
    (if fingerExtended h 12 10 9 then 1 else 0) +
    (if fingerExtended h 16 14 13 then 1 else 0) +
    (if fingerExtended h 20 18 17 then 1 else 0)

/-- `GestureRecognizer.classifyGesture`: finger count to discrete gesture. -/
def classifyGesture (fingerCount : Nat) : FingerGesture :=
  match fingerCount with
  | 0 => .closed_fist
  | 1 => .one_finger
  | 2 => .two_fingers
  | 5 => .open_palm
  | _ => .unknown

/-- Push into the gesture history ring buffer of capacity 8
(`push` then `shift` when the length exceeds `gestureHistorySize`). -/
def pushT (l : List FingerGesture) (g : FingerGesture) : List FingerGesture :=
  let l1 := l ++ [g]
  if l1.length > 8 then l1.drop 1 else l1

/-- The keys of the frequency object in insertion order: JavaScript string
keys enumerate in order of first insertion. -/
def firstKeys : List FingerGesture → List FingerGesture
  | [] => []
  | g :: rest => g :: (firstKeys rest).filter (fun g2 => g2 ≠ g)

/-- The head of `Object.entries(freq).sort(desc)`: JavaScript's sort is
stable, so the result is the first-inserted key of maximal count
(`'unknown'` when the history is empty). -/
def majorityCandidate (l : List FingerGesture) : FingerGesture :=
  let best := (firstKeys l).foldl
    (fun best g =>
      match best with
      | none => some g
      | some b => if l.count g > l.count b then some g else some b)
    none
  match best with
  | some g => g
  | none => .unknown

/-- The persistent recognizer state used by `recognizeFingerGestures`:
`gestureHistory` and `lastStableGesture`. -/
structure GestureRecognizer where
  gestureHistory : List FingerGesture
  lastStableGesture : FingerGesture
deriving DecidableEq

/-- The fresh recognizer (`new GestureRecognizer()`). -/
def GestureRecognizer.init : GestureRecognizer := ⟨[], .unknown⟩

/-- The history/vote part of `recognizeFingerGestures`, in terms of the
frame's raw discrete gesture `g`: push into the ring buffer, majority vote,
overwrite the stable gesture only above the 0.6 stability gate; returns the
majority frequency ratio (the reported confidence) and the new state. -/
def recognizeVote (st : GestureRecognizer) (g : FingerGesture) :
    ℚ × GestureRecognizer :=
  let hist := pushT st.gestureHistory g
  let stableGesture := majorityCandidate hist
  let confidence := (hist.count stableGesture : ℚ) / (hist.length : ℚ)
  let newStable := if confidence > 0.6 then stableGesture else st.lastStableGesture
  (confidence, ⟨hist, newStable⟩)

/-- The per-frame body of `recognizeFingerGestures` once the primary hand's
extended-finger count `fc` is known: the vote on the raw gesture
`classifyGesture fc`, packaged as the reported `FingerGestureState`. -/
def recognizeStep (st : GestureRecognizer) (fc : Nat) :
    FingerGestureState × GestureRecognizer :=
  let r := recognizeVote st (classifyGesture fc)
  (⟨r.2.lastStableGesture, fc, r.1, true⟩, r.2)

/-- `GestureRecognizer.recognizeFingerGestures(landmarks)`. -/
def GestureRecognizer.recognizeFingerGestures (st : GestureRecognizer)
    (hands : List Hand) : FingerGestureState × GestureRecognizer :=
  match hands with
  | [] => (⟨.unknown, 0, 0, false⟩, st)
  | primary :: _ => recognizeStep st (countExtendedFingers primary)

/-! ## Gesture engine (src gesture-engine.ts, `GestureEngine`) -/

/-- `GestureSnapshot`. -/
structure GestureSnapshot where
  t : ℚ
  mode : GestureMode
  pinch : ℚ
  pinchDelta : ℚ
  yaw : ℚ
  pitch : ℚ
  roll : ℚ
  hands : Nat
  quality : ℚ
deriving DecidableEq

/-- `CalibrationData`. -/
structure CalibrationData where
  neutralYaw : ℚ
  neutralPitch : ℚ
  neutralRoll : ℚ
  handBaseline : ℚ
deriving DecidableEq

/-- `HandFrame`: the six named landmarks extracted for calibration. -/
structure HandFrame where
  wrist : Landmark
  thumbTip : Landmark
  indexMCP : Landmark
  indexTip : Landmark
  middleMCP : Landmark
  pinkyMCP : Landmark
deriving DecidableEq

/-- State of `GestureEngine`.  `events` records the timestamps at which
`eventBus.emit('voiceListenToggle', …)` fired (the external event channel). -/
structure GestureEngine where
  filter : GestureFilter
  stateMachine : GestureStateMachine
  calibration : CalibrationData
  lastSnapshot : GestureSnapshot
  previousValues : Option (ℚ × ℚ × ℚ)
  lastIndexTipX : Option ℚ
  lastTimestampMs : Option ℚ
  lastVoiceToggleAt : ℚ
  gestureRecognizer : GestureRecognizer
  lastFingerGesture : FingerGestureState
  events : List ℚ
deriving DecidableEq

/-- `createIdleSnapshot(t)`. -/
def createIdleSnapshot (t : ℚ) : GestureSnapshot :=
  ⟨t, .Idle, 0, 0, 0, 0, 0, 0, 0⟩

/-- The `GestureEngine` constructor (the snapshot timestamp the constructor
takes from `performance.now()` is rendered 0; no claim depends on it). -/
def GestureEngine.init : GestureEngine where
  filter := GestureFilter.init
  stateMachine := ⟨.Idle, 0, 0⟩
  calibration := ⟨0, 0, 0, 0.1⟩
  lastSnapshot := createIdleSnapshot 0
  previousValues := none
  lastIndexTipX := none
  lastTimestampMs := none
  lastVoiceToggleAt := 0
  gestureRecognizer := GestureRecognizer.init
  lastFingerGesture := ⟨.unknown, 0, 0, false⟩
  events := []

/-- `GestureEngine.processFingerGestures(landmarks, tMs)`: maps the stable
finger gesture (already stored in `lastFingerGesture` by `ingest`) to mode and
control deltas, runs the one-finger fingertip-velocity tracker and the
two-fingers voice-toggle debounce (cooldown 1200 ms), and replaces the
snapshot wholesale. -/
def GestureEngine.processFingerGestures (st : GestureEngine) (hands : List Hand)
    (tMs : ℚ) : GestureEngine :=
  let fg := st.lastFingerGesture
  let r : GestureMode × ℚ × ℚ × GestureEngine :=
    if fg.confidence > 0.5 then
      match fg.gesture with
      | .open_palm => (.Zoom, -0.8, 0, st)
      | .closed_fist => (.Zoom, 0.8, 0, st)
      | .one_finger =>
        let primary := hands.headD []
        match primary.get? 8 with
        | some indexTip =>
          let currentX := indexTip.x
          let yaw : ℚ :=
            match st.lastIndexTipX, st.lastTimestampMs with
            | some lastX, some lastT =>
              let dt := max 0.001 ((tMs - lastT) / 1000)
              let vx := (currentX - lastX) / dt
              let gain : ℚ := 2.0
              let y := vx * gain
              max (-mathPI) (min mathPI y)
            | _, _ => 0
          (.Orbit, 0, yaw,
           { st with lastIndexTipX := some currentX, lastTimestampMs := some tMs })
        | none => (.Orbit, 0, 0, st)
      | .two_fingers =>
        if tMs - st.lastVoiceToggleAt > 1200 then
          (.Idle, 0, 0,
           { st with lastVoiceToggleAt := tMs, events := st.events ++ [tMs] })
        else
          (.Idle, 0, 0, st)
      | .unknown => (.Idle, 0, 0, st)
    else
      (.Idle, 0, 0, st)
  let mode := r.1
  let pinchDelta := r.2.1
  let yaw := r.2.2.1
  let st1 := r.2.2.2
  let st2 :=
    if fg.gesture ≠ .one_finger then
      { st1 with lastIndexTipX := none, lastTimestampMs := some tMs }
    else st1
  { st2 with lastSnapshot :=
      ⟨tMs, mode, if fg.gesture = .closed_fist then 0.9 else 0.1, pinchDelta,
       yaw, 0, 0, hands.length, fg.confidence⟩ }

/-- `GestureEngine.ingest(landmarks, tMs)`. -/
def GestureEngine.ingest (st : GestureEngine) (hands : List Hand) (tMs : ℚ) :
    GestureEngine :=
  if hands = [] then
    { st with
      lastSnapshot := createIdleSnapshot tMs
      lastFingerGesture := ⟨.unknown, 0, 0, false⟩ }
  else
    let r := st.gestureRecognizer.recognizeFingerGestures hands
    GestureEngine.processFingerGestures
      { st with lastFingerGesture := r.1, gestureRecognizer := r.2 } hands tMs

/-- `GestureEngine.read()`. -/
def GestureEngine.read (st : GestureEngine) : GestureSnapshot := st.lastSnapshot

/-- `GestureEngine.extractHandFrame`. -/
def extractHandFrame (h : Hand) : Option HandFrame :=
  if h.length < 21 then none
  else some ⟨lmAt h 0, lmAt h 4, lmAt h 5, lmAt h 8, lmAt h 9, lmAt h 17⟩

/-- `GestureEngine.calculateHandBaseline`: distance from wrist to index MCP
(the source's `dz` reads `frame.indexMCP.z || 0`, not a difference). -/
def calculateHandBaseline (frame : HandFrame) : ℚ :=
  let dx := frame.indexMCP.x - frame.wrist.x
  let dy := frame.indexMCP.y - frame.wrist.y
  let dz := frame.indexMCP.z
  qsqrt (dx * dx + dy * dy + dz * dz)

/-- `GestureEngine.calibrateNeutral(landmarks)`.  `orient` stands for
`calculatePalmOrientation`, whose yaw/pitch/roll go through `Math.atan2` /
`Math.asin`; those transcendental functions have no exact rational
counterpart, so the orientation computation is a parameter (no claim depends
on its values, only on where its results are stored). -/
def GestureEngine.calibrateNeutral (orient : HandFrame → ℚ × ℚ × ℚ)
    (st : GestureEngine) (hands : List Hand) : Bool × GestureEngine :=
  if hands = [] then (false, st)
  else
    match extractHandFrame (hands.headD []) with
    | none => (false, st)
    | some frame =>
      let o := orient frame
      let handBaseline := calculateHandBaseline frame
      (true,
       { st with
         calibration := ⟨o.1, o.2.1, o.2.2, handBaseline⟩
         filter := st.filter.reset
         stateMachine := st.stateMachine.reset
         previousValues := none })

/-! ## Camera mapper (src hand-gesture-controls-v2.ts, `HandGestureControlsV2`) -/

/-- The externally owned orbit camera, abstracted — as §4.5 of the design puts
it — to "spherical offset from a target, with min/max distance": `distance` is
`controls.getDistance()`, `theta`/`phi` the spherical angles of the camera's
offset from the target. -/
structure CameraState where
  distance : ℚ
  theta : ℚ
  phi : ℚ
  minDistance : ℚ
  maxDistance : ℚ
deriving DecidableEq

/-- `HandGestureControlsV2` state: enabled flag, gains, and the
`lastMouseActivity` timestamp. -/
structure HandGestureControlsV2 where
  isEnabled : Bool
  zoomGain : ℚ
  yawGain : ℚ
  pitchGain : ℚ
  lastMouseActivity : ℚ
deriving DecidableEq

/-- MAX_ROTATION_PER_FRAME = π/60 (3°). -/
def MAX_ROTATION_PER_FRAME : ℚ := mathPI / 60

/-- MAX_ZOOM_SCALE_PER_FRAME = 1.08. -/
def MAX_ZOOM_SCALE_PER_FRAME : ℚ := 1.08

/-- `HandGestureControlsV2.applyZoom(gesture, dt)`. -/
def applyZoom (c : HandGestureControlsV2) (g : GestureSnapshot) (dt : ℚ)
    (cam : CameraState) : CameraState :=
  if |g.pinchDelta| < 0.01 then cam
  else
    let scaledDelta := g.pinchDelta * c.zoomGain * dt
    let clampedDelta := max (-0.5) (min 0.5 scaledDelta)
    let scale := 1 + |clampedDelta|
    let clampedScale := min MAX_ZOOM_SCALE_PER_FRAME scale
    let currentDistance := cam.distance
    let newDistance :=
      if clampedDelta > 0 then currentDistance / clampedScale
      else currentDistance * clampedScale
    let newDistance := max cam.minDistance (min cam.maxDistance newDistance)
    { cam with distance := newDistance }

/-- `HandGestureControlsV2.applyRotation(gesture, dt)`: spherical-coordinate
rotation with per-frame clamps and the polar epsilon 0.01. -/
def applyRotation (c : HandGestureControlsV2) (g : GestureSnapshot) (dt : ℚ)
    (cam : CameraState) : CameraState :=
  let yawDelta := g.yaw * c.yawGain * dt * 10
  let pitchDelta := g.pitch * c.pitchGain * dt * 10
  let clampedYaw := max (-MAX_ROTATION_PER_FRAME) (min MAX_ROTATION_PER_FRAME yawDelta)
  let clampedPitch := max (-MAX_ROTATION_PER_FRAME) (min MAX_ROTATION_PER_FRAME pitchDelta)
  let theta := cam.theta + clampedYaw
  let phi := cam.phi + clampedPitch
  let EPS : ℚ := 0.01
  let phi := max EPS (min (mathPI - EPS) phi)
  { cam with theta := theta, phi := phi }

/-- `HandGestureControlsV2.apply(gesture, dt)`; `now` is the
`performance.now()` read inside `shouldAcceptGestures` (MOUSE_PRIORITY_WINDOW
= 300 ms). -/
def HandGestureControlsV2.apply (c : HandGestureControlsV2) (g : GestureSnapshot)
    (dt now : ℚ) (cam : CameraState) : CameraState :=
  if c.isEnabled = false ∨ ¬(now - c.lastMouseActivity > 300) then cam
  else
    match g.mode with
    | .Zoom => applyZoom c g dt cam
    | .Orbit => applyRotation c g dt cam
    | .Idle => cam

/-! ## Concrete hands used by witnesses and counterexamples

Layout convention of these synthetic hands: image coordinates with y growing
downwards, fingers pointing up; a curled finger has its tip below its MCP, an
extended finger has PIP and TIP vertically above its MCP, and the thumb tip is
placed exactly at the palm center (midpoint of landmarks 5 and 17), which the
thumb heuristic classifies as not extended; the thumb MCP sits at offset
(-0.15, 0.2) from the palm center.  Every `qsqrt` argument these hands produce
is 0, 1/100 or 1/16 — squares of rationals, where `qsqrt` is exact. -/

/-- Landmark constructor shorthand (z = 0). -/
def L (x y : ℚ) : Landmark := ⟨x, y, 0⟩

/-- A full 21-landmark hand with every digit curled: raw classification
`closed_fist` (0 extended fingers). -/
def closedFistHand : Hand :=
  [L 0.5 0.9, L 0 0, L 0.4 0.7, L 0.3 0.65, L 0.55 0.5,
   L 0.4 0.5, L 0.4 0.6, L 0 0, L 0.4 0.7,
   L 0.5 0.5, L 0.5 0.6, L 0 0, L 0.5 0.7,
   L 0.6 0.5, L 0.6 0.6, L 0 0, L 0.6 0.7,
   L 0.7 0.5, L 0.7 0.6, L 0 0, L 0.7 0.7]

/-- A full 21-landmark hand with index, middle and ring extended (3 extended
fingers): raw classification `unknown`. -/
def threeFingerHand : Hand :=
  [L 0.5 0.9, L 0 0, L 0.4 0.7, L 0.3 0.65, L 0.55 0.5,
   L 0.4 0.5, L 0.4 0.4, L 0 0, L 0.4 0.3,
   L 0.5 0.5, L 0.5 0.4, L 0 0, L 0.5 0.3,
   L 0.6 0.5, L 0.6 0.4, L 0 0, L 0.6 0.3,
   L 0.7 0.5, L 0.7 0.6, L 0 0, L 0.7 0.7]

/-- A full 21-landmark hand with only the index finger extended, the index
column placed at abscissa `x` (so the index fingertip, landmark 8, has that
x-coordinate): raw classification `one_finger` for every `x`. -/
def oneFingerHand (x : ℚ) : Hand :=
  [L 0.5 0.9, L 0 0, L ((x + 0.7) / 2 - 0.15) 0.7, L 0.3 0.65, L ((x + 0.7) / 2) 0.5,
   L x 0.5, L x 0.4, L 0 0, L x 0.3,
   L 0.5 0.5, L 0.5 0.6, L 0 0, L 0.5 0.7,
   L 0.6 0.5, L 0.6 0.6, L 0 0, L 0.6 0.7,
   L 0.7 0.5, L 0.7 0.6, L 0 0, L 0.7 0.7]

/-- A malformed hand of a single landmark (fewer than 21): the classifier's
length guard counts 0 extended fingers, raw classification `closed_fist`. -/
def shortHand : Hand := [L 0.5 0.5]

/-- Engine state with the fingertip tracker holding a previous sample at
x = 0.4 taken at t = 0 ms (used to instantiate the one-finger yaw theorem at
the spec's worked example). -/
def trackerPrimedEngine : GestureEngine :=
  { GestureEngine.init with lastIndexTipX := some 0.4, lastTimestampMs := some 0 }

/-- Engine state whose recognizer history already holds eight `two_fingers`
frames (so one further frame keeps the stable gesture `two_fingers` with
confidence above the threshold). -/
def voicePrimedEngine : GestureEngine :=
  { GestureEngine.init with
    gestureRecognizer := ⟨List.replicate 8 .two_fingers, .two_fingers⟩ }

/-- Engine state whose recognizer history holds eight `open_palm` frames. -/
def palmPrimedEngine : GestureEngine :=
  { GestureEngine.init with
    gestureRecognizer := ⟨List.replicate 8 .open_palm, .open_palm⟩ }

/-- Concrete camera mapper state used to instantiate the rate-limit theorem:
enabled, default gains, no recent mouse activity. -/
def ctlC3 : HandGestureControlsV2 := ⟨true, 0.8, 1.2, 1.0, 0⟩

/-- Concrete camera: distance 5 in bounds [1, 10], polar angle 1 rad. -/
def camC3 : CameraState := ⟨5, 0, 1, 1, 10⟩

/-- Concrete snapshot: Zoom at full pinchDelta 0.8, quality 1. -/
def snapC3 : GestureSnapshot := ⟨0, .Zoom, 0.9, 0.8, 0, 0, 0, 1, 1⟩

/-- A concrete stand-in for `calculatePalmOrientation` used to instantiate
the calibration theorem. -/
def orientC6 : HandFrame → ℚ × ℚ × ℚ := fun _ => (1, 2, 3)

/-- Engine state with a partially filled, non-fist recognizer history, used
to instantiate the malformed-hand convergence theorem from a non-trivial
start. -/
def malformedPrimedEngine : GestureEngine :=
  { GestureEngine.init with
    gestureRecognizer := ⟨[.open_palm, .open_palm, .one_finger], .open_palm⟩ }

/-! ## Theorems -/

set_option maxRecDepth 3000
set_option maxHeartbeats 1600000

/-- An uninitialized filter initializes: first call returns `x` unchanged. -/
theorem OneEuroFilter.filter_uninit (f : OneEuroFilter) (x t : ℚ)
    (h : f.inited = false) :
    f.filter x t = (x, { f with x_prev := x, t_prev := t, inited := true }) := by
  rw [OneEuroFilter.filter, if_pos h]

/-- An initialized filter with `dt ≤ 0` is a no-op. -/
theorem OneEuroFilter.filter_noop (f : OneEuroFilter) (x t : ℚ)
    (h : f.inited = true) (h2 : t ≤ f.t_prev) :
    f.filter x t = (f.x_prev, f) := by
  rw [OneEuroFilter.filter, if_neg (by simp [h]), if_pos (by linarith)]

/-- After any `filter` call the state is initialized, its `x_prev` is the
returned value, and its `t_prev` is at least `t`. -/
theorem OneEuroFilter.filter_post (f : OneEuroFilter) (x t : ℚ) :
    (f.filter x t).2.inited = true ∧ (f.filter x t).2.x_prev = (f.filter x t).1 ∧
    t ≤ (f.filter x t).2.t_prev := by
  rw [OneEuroFilter.filter]
  by_cases h : f.inited = false
  · rw [if_pos h]; exact ⟨rfl, rfl, le_refl t⟩
  · rw [if_neg h]
    by_cases h2 : t - f.t_prev ≤ 0
    · rw [if_pos h2]
      exact ⟨by simp at h; exact h, rfl, by linarith⟩
    · rw [if_neg h2]
      exact ⟨by simp at h; exact h, rfl, le_refl t⟩

/-- C5: calling `OneEuroFilter.filter` again with a timestamp not greater
than the previous call's returns exactly the value the previous call returned
and leaves the filter state (x_prev, dx_prev, t_prev, initialized) unchanged;
in particular a call with `dt = t - t_prev ≤ 0` on an initialized filter is a
no-op returning the previous filtered value. -/
theorem oneEuroFilter_duplicate_timestamp_idempotent
    (f : OneEuroFilter) (x t x2 t2 : ℚ) (h : t2 ≤ t) :
    (f.filter x t).2.filter x2 t2 = ((f.filter x t).1, (f.filter x t).2) ∧
    (f.inited = true → t ≤ f.t_prev → f.filter x t = (f.x_prev, f)) := by
  refine ⟨?_, fun hini hle => OneEuroFilter.filter_noop f x t hini hle⟩
  obtain ⟨hinit, hx, ht⟩ := OneEuroFilter.filter_post f x t
  rw [OneEuroFilter.filter_noop _ _ _ hinit (le_trans h ht), hx]

/-- Witness for C5 at a concrete input: a fresh pinch filter, first call at
t = 1 returning x = 5, duplicate call at the same timestamp. -/
theorem oneEuroFilter_duplicate_timestamp_idempotent_witness :
    ((1 : ℚ) ≤ 1) ∧
    (((mkOneEuro 1.2 0.01 1).filter 5 1).2.filter 7 1 =
      (((mkOneEuro 1.2 0.01 1).filter 5 1).1, ((mkOneEuro 1.2 0.01 1).filter 5 1).2) ∧
     ((mkOneEuro 1.2 0.01 1).inited = true → (1 : ℚ) ≤ (mkOneEuro 1.2 0.01 1).t_prev →
       (mkOneEuro 1.2 0.01 1).filter 5 1 = ((mkOneEuro 1.2 0.01 1).x_prev, mkOneEuro 1.2 0.01 1))) :=
  ⟨le_refl 1, oneEuroFilter_duplicate_timestamp_idempotent (mkOneEuro 1.2 0.01 1) 5 1 7 1 (le_refl 1)⟩

/-- C1 (amended): a `GestureStateMachine.update` call changes the reported
mode only when (a) at least MIN_MODE_DURATION = 100 ms of the update clock
have passed since the last committed transition, and (b) the accumulated mode
timer including this call's `dt` has reached the required delay — ENTER_DELAY
= 80 ms when leaving Idle, EXIT_DELAY = 120 ms otherwise; when it changes, it
changes to the candidate `determineMode pinch palmActive` and records `now` as
the transition time (so no two changes can be committed less than 100 ms of
that clock apart).  The mode timer is reset on non-cooldown calls whose
candidate matches the current mode, but keeps accumulating during the 100 ms
cooldown window, so the candidate itself need not have persisted continuously
for the required delay (see the counterexample). -/
theorem update_mode_change_characterization (sm : GestureStateMachine)
    (pinch : ℚ) (palmActive : Bool) (dt now : ℚ)
    (hchg : (sm.update pinch palmActive dt now).2.currentMode ≠ sm.currentMode) :
    (sm.update pinch palmActive dt now).1 =
      (sm.update pinch palmActive dt now).2.currentMode ∧
    100 ≤ now - sm.lastTransition ∧
    sm.modeTimer + dt ≥ (if sm.currentMode = .Idle then (80 : ℚ) else 120) ∧
    (sm.update pinch palmActive dt now).2.currentMode =
      determineMode pinch palmActive ∧
    (sm.update pinch palmActive dt now).2.lastTransition = now ∧
    (sm.update pinch palmActive dt now).2.modeTimer = 0 := by
  rw [GestureStateMachine.update] at hchg ⊢
  by_cases hc : now - sm.lastTransition < 100
  · rw [if_pos hc] at hchg; simp at hchg
  · rw [if_neg hc] at hchg ⊢
    by_cases hne : determineMode pinch palmActive ≠ sm.currentMode
    · rw [if_pos hne] at hchg ⊢
      by_cases hdl : sm.modeTimer + dt ≥ (if sm.currentMode = .Idle then (80 : ℚ) else 120)
      · simp only [ge_iff_le] at hdl
        rw [if_pos (by simpa using hdl)] at hchg ⊢
        exact ⟨rfl, by linarith, by simpa using hdl, rfl, rfl, rfl⟩
      · rw [if_neg (by simpa using hdl)] at hchg
        simp at hchg
    · rw [if_neg hne] at hchg ⊢
      simp at hchg

/-- Counterexample for C1 as stated: starting from the fresh state machine,
a first call during the initial cooldown window whose candidate is Idle
(pinch 0, no palm; dt = 99, clock 99) accumulates the timer without resetting
it; a second call whose candidate Zoom (pinch 1) has been present for only
dt = 1 ms then commits the transition Idle → Zoom, although 1 ms is far below
the 80 ms enter delay: the candidate had not "persisted continuously for the
required delay". -/
theorem update_commits_without_candidate_persistence :
    determineMode 0 false = .Idle ∧
    determineMode 1 false = .Zoom ∧
    (GestureStateMachine.update ⟨.Idle, 0, 0⟩ 0 false 99 99).1 = .Idle ∧
    (GestureStateMachine.update (GestureStateMachine.update ⟨.Idle, 0, 0⟩ 0 false 99 99).2
        1 false 1 100).1 = .Zoom ∧
    ((1 : ℚ) < 80) := by
  refine ⟨by with_unfolding_all rfl, by with_unfolding_all rfl,
    by with_unfolding_all rfl, by with_unfolding_all rfl, by norm_num⟩

/-- Witness for C1's amended theorem: a single call from the fresh machine
with pinch 1 (candidate Zoom), dt = 100, clock 150 commits Idle → Zoom, and
the theorem's conditions hold there. -/
theorem update_mode_change_characterization_witness :
    (GestureStateMachine.update ⟨.Idle, 0, 0⟩ 1 false 100 150).2.currentMode ≠
      GestureMode.Idle ∧
    ((GestureStateMachine.update ⟨.Idle, 0, 0⟩ 1 false 100 150).1 =
      (GestureStateMachine.update ⟨.Idle, 0, 0⟩ 1 false 100 150).2.currentMode ∧
    (100 : ℚ) ≤ 150 - (0 : ℚ) ∧
    (0 : ℚ) + 100 ≥ (if (GestureMode.Idle = GestureMode.Idle) then (80 : ℚ) else 120) ∧
    (GestureStateMachine.update ⟨.Idle, 0, 0⟩ 1 false 100 150).2.currentMode =
      determineMode 1 false ∧
    (GestureStateMachine.update ⟨.Idle, 0, 0⟩ 1 false 100 150).2.lastTransition = 150 ∧
    (GestureStateMachine.update ⟨.Idle, 0, 0⟩ 1 false 100 150).2.modeTimer = 0) := by
  have h : (GestureStateMachine.update ⟨.Idle, 0, 0⟩ 1 false 100 150).2.currentMode =
      GestureMode.Zoom := by with_unfolding_all rfl
  have hne : (GestureStateMachine.update ⟨.Idle, 0, 0⟩ 1 false 100 150).2.currentMode ≠
      GestureMode.Idle := by rw [h]; decide
  exact ⟨hne, update_mode_change_characterization ⟨.Idle, 0, 0⟩ 1 false 100 150 hne⟩

/-- C2 (amended): `ingest` with no hands replaces the snapshot by the
canonical idle snapshot at `tMs` (mode Idle, pinch 0, pinchDelta 0, yaw 0,
pitch 0, roll 0, hands 0, quality 0) and resets `lastFingerGesture` to the
unknown state, but touches nothing else: in particular the index-fingertip
velocity tracker (`lastIndexTipX`, `lastTimestampMs`), the recognizer history,
the filter, the state machine and the calibration are left unchanged, so a
stale fingertip sample can survive an empty frame (see the counterexample). -/
theorem ingest_no_hands (st : GestureEngine) (tMs : ℚ) :
    st.ingest [] tMs =
      { st with
        lastSnapshot := ⟨tMs, .Idle, 0, 0, 0, 0, 0, 0, 0⟩
        lastFingerGesture := ⟨.unknown, 0, 0, false⟩ } := by
  rw [GestureEngine.ingest, if_pos rfl]
  rfl

/-- Counterexample for C2 as stated: from the fresh engine, a one-finger
frame at t = 0 (index tip at x = 0.4) stores a fingertip sample; an empty
frame at t = 100 produces the idle snapshot but leaves that sample in place;
when the hand reappears at t = 10100 with the index tip at x = 0.9, the
stale sample from before the gap produces yaw = 10/101 ≠ 0 — a stale
fingertip delta influencing a later frame, which the claim says cannot
happen. -/
theorem ingest_no_hands_stale_tracker_counterexample :
    ((GestureEngine.init.ingest [oneFingerHand 0.4] 0).ingest [] 100).lastIndexTipX
      = some 0.4 ∧
    (((GestureEngine.init.ingest [oneFingerHand 0.4] 0).ingest [] 100).ingest
        [oneFingerHand 0.9] 10100).lastSnapshot.yaw = 10 / 101 ∧
    (10 / 101 : ℚ) ≠ 0 := by
  refine ⟨by with_unfolding_all rfl, by with_unfolding_all rfl, by norm_num⟩

/-- Clamping into `[lo, hi]` lands in `[lo, hi]`. -/
theorem clamp_mem {lo hi y : ℚ} (h : lo ≤ hi) :
    lo ≤ max lo (min hi y) ∧ max lo (min hi y) ≤ hi :=
  ⟨le_max_left _ _, max_le h (min_le_left _ _)⟩

/-- A symmetric clamp is bounded by the clamp radius. -/
theorem abs_clamp_le {M y : ℚ} (hM : 0 ≤ M) : |max (-M) (min M y)| ≤ M := by
  rw [abs_le]
  exact ⟨le_max_left _ _, max_le (by linarith) (min_le_left _ _)⟩

/-- Clamping `x + c` into an interval containing `x` moves the value by at
most `|c|`. -/
theorem abs_clamp_add_sub_le {lo hi x c : ℚ} (h1 : lo ≤ x) (h2 : x ≤ hi) :
    |max lo (min hi (x + c)) - x| ≤ |c| := by
  have hc1 : c ≤ |c| := le_abs_self c
  have hc2 : -|c| ≤ c := neg_abs_le c
  rw [abs_le]
  rcases max_cases lo (min hi (x + c)) with ⟨hv, hle⟩ | ⟨hv, hlt⟩ <;>
    rcases min_cases hi (x + c) with ⟨hw, hwle⟩ | ⟨hw, hwlt⟩ <;>
    rw [hv] <;> first
      | (constructor <;> linarith [hw.symm ▸ hle])
      | (constructor <;> simp only [hw] at * <;> linarith)

/-- `applyZoom` multiplies or divides the distance by a factor of at most
MAX_ZOOM_SCALE_PER_FRAME, keeps it inside the camera's distance bounds when
it started there, and does not touch the angles. -/
theorem applyZoom_bounds (c : HandGestureControlsV2) (g : GestureSnapshot)
    (dt : ℚ) (cam : CameraState) (hmin : 0 < cam.minDistance)
    (hlo : cam.minDistance ≤ cam.distance) (hhi : cam.distance ≤ cam.maxDistance) :
    cam.distance / MAX_ZOOM_SCALE_PER_FRAME ≤ (applyZoom c g dt cam).distance ∧
    (applyZoom c g dt cam).distance ≤ cam.distance * MAX_ZOOM_SCALE_PER_FRAME ∧
    cam.minDistance ≤ (applyZoom c g dt cam).distance ∧
    (applyZoom c g dt cam).distance ≤ cam.maxDistance ∧
    (applyZoom c g dt cam).theta = cam.theta ∧
    (applyZoom c g dt cam).phi = cam.phi ∧
    (applyZoom c g dt cam).minDistance = cam.minDistance ∧
    (applyZoom c g dt cam).maxDistance = cam.maxDistance := by
  have hd0 : (0 : ℚ) < cam.distance := lt_of_lt_of_le hmin hlo
  have hz : (1 : ℚ) ≤ MAX_ZOOM_SCALE_PER_FRAME := by rw [MAX_ZOOM_SCALE_PER_FRAME]; norm_num
  rw [applyZoom]
  by_cases hg : |g.pinchDelta| < 0.01
  · rw [if_pos hg]
    refine ⟨?_, ?_, hlo, hhi, by trivial, by trivial, by trivial, by trivial⟩
    · exact le_trans (div_le_self (le_of_lt hd0) hz) (le_refl _)
    · nlinarith
  · rw [if_neg hg]
    simp only
    set cd := max (-0.5 : ℚ) (min 0.5 (g.pinchDelta * c.zoomGain * dt)) with hcd
    set s := min MAX_ZOOM_SCALE_PER_FRAME (1 + |cd|) with hs
    have hs1 : (1 : ℚ) ≤ s := le_min hz (by simp [abs_nonneg])
    have hs0 : (0 : ℚ) < s := lt_of_lt_of_le one_pos hs1
    have hsM : s ≤ MAX_ZOOM_SCALE_PER_FRAME := min_le_left _ _
    set cand := if cd > 0 then cam.distance / s else cam.distance * s with hcand
    have hcand_lo : cam.distance / MAX_ZOOM_SCALE_PER_FRAME ≤ cand := by
      rw [hcand]
      split
      · rw [div_le_div_iff₀ (by linarith) hs0]
        nlinarith
      · calc cam.distance / MAX_ZOOM_SCALE_PER_FRAME ≤ cam.distance :=
              div_le_self (le_of_lt hd0) hz
          _ ≤ cam.distance * s := by nlinarith
    have hcand_hi : cand ≤ cam.distance * MAX_ZOOM_SCALE_PER_FRAME := by
      rw [hcand]
      split
      · calc cam.distance / s ≤ cam.distance := div_le_self (le_of_lt hd0) hs1
          _ ≤ cam.distance * MAX_ZOOM_SCALE_PER_FRAME := by nlinarith
      · nlinarith
    have hmm : cam.minDistance ≤ cam.maxDistance := le_trans hlo hhi
    refine ⟨?_, ?_, (clamp_mem hmm).1, (clamp_mem hmm).2, by trivial, by trivial, by trivial, by trivial⟩
    · have h1 : cam.distance / MAX_ZOOM_SCALE_PER_FRAME ≤ cam.maxDistance :=
        le_trans (le_trans (div_le_self (le_of_lt hd0) hz) hhi) (le_refl _)
      exact le_trans (le_min h1 hcand_lo) (le_max_right _ _)
    · have h2 : cam.minDistance ≤ cam.distance * MAX_ZOOM_SCALE_PER_FRAME := by nlinarith
      exact max_le h2 (le_trans (min_le_right _ _) hcand_hi)

/-- `applyRotation` changes each spherical angle by at most
MAX_ROTATION_PER_FRAME, keeps the polar angle in `[0.01, π - 0.01]` when it
started there, and does not touch the distance. -/
theorem applyRotation_bounds (c : HandGestureControlsV2) (g : GestureSnapshot)
    (dt : ℚ) (cam : CameraState)
    (hplo : (0.01 : ℚ) ≤ cam.phi) (hphi : cam.phi ≤ mathPI - 0.01) :
    |(applyRotation c g dt cam).theta - cam.theta| ≤ MAX_ROTATION_PER_FRAME ∧
    |(applyRotation c g dt cam).phi - cam.phi| ≤ MAX_ROTATION_PER_FRAME ∧
    (0.01 : ℚ) ≤ (applyRotation c g dt cam).phi ∧
    (applyRotation c g dt cam).phi ≤ mathPI - 0.01 ∧
    (applyRotation c g dt cam).distance = cam.distance ∧
    (applyRotation c g dt cam).minDistance = cam.minDistance ∧
    (applyRotation c g dt cam).maxDistance = cam.maxDistance := by
  have hM : (0 : ℚ) ≤ MAX_ROTATION_PER_FRAME := by
    rw [MAX_ROTATION_PER_FRAME, mathPI]; norm_num
  have hee : (0.01 : ℚ) ≤ mathPI - 0.01 := le_trans hplo hphi
  rw [applyRotation]
  simp only
  refine ⟨by simpa using abs_clamp_le (y := g.yaw * c.yawGain * dt * 10) hM,
    ?_, (clamp_mem hee).1, (clamp_mem hee).2, by trivial, by trivial, by trivial⟩
  exact le_trans (abs_clamp_add_sub_le hplo hphi)
    (abs_clamp_le (y := g.pitch * c.pitchGain * dt * 10) hM)

/-- C3: whatever the magnitudes of `pinchDelta`, `yaw`, `pitch` and `dt`, a
single `HandGestureControlsV2.apply` call multiplies or divides the camera
distance by a factor of at most MAX_ZOOM_SCALE_PER_FRAME = 1.08, keeps the
distance inside `[minDistance, maxDistance]`, changes each of the two
spherical angles by at most MAX_ROTATION_PER_FRAME = π/60, and keeps the
polar angle inside `[0.01, π - 0.01]` (starting from a camera whose distance
and polar angle satisfy those bounds). -/
theorem camera_apply_bounded (c : HandGestureControlsV2) (g : GestureSnapshot)
    (dt now : ℚ) (cam : CameraState)
    (hmin : 0 < cam.minDistance) (hlo : cam.minDistance ≤ cam.distance)
    (hhi : cam.distance ≤ cam.maxDistance)
    (hplo : (0.01 : ℚ) ≤ cam.phi) (hphi : cam.phi ≤ mathPI - 0.01) :
    cam.distance / MAX_ZOOM_SCALE_PER_FRAME ≤ (c.apply g dt now cam).distance ∧
    (c.apply g dt now cam).distance ≤ cam.distance * MAX_ZOOM_SCALE_PER_FRAME ∧
    cam.minDistance ≤ (c.apply g dt now cam).distance ∧
    (c.apply g dt now cam).distance ≤ cam.maxDistance ∧
    |(c.apply g dt now cam).theta - cam.theta| ≤ MAX_ROTATION_PER_FRAME ∧
    |(c.apply g dt now cam).phi - cam.phi| ≤ MAX_ROTATION_PER_FRAME ∧
    (0.01 : ℚ) ≤ (c.apply g dt now cam).phi ∧
    (c.apply g dt now cam).phi ≤ mathPI - 0.01 := by
  have hd0 : (0 : ℚ) < cam.distance := lt_of_lt_of_le hmin hlo
  have hz : (1 : ℚ) ≤ MAX_ZOOM_SCALE_PER_FRAME := by
    rw [MAX_ZOOM_SCALE_PER_FRAME]; norm_num
  have hM : (0 : ℚ) ≤ MAX_ROTATION_PER_FRAME := by
    rw [MAX_ROTATION_PER_FRAME, mathPI]; norm_num
  have hselfd : cam.distance / MAX_ZOOM_SCALE_PER_FRAME ≤ cam.distance ∧
      cam.distance ≤ cam.distance * MAX_ZOOM_SCALE_PER_FRAME :=
    ⟨div_le_self (le_of_lt hd0) hz, by nlinarith⟩
  have habs0 : ∀ a : ℚ, |a - a| ≤ MAX_ROTATION_PER_FRAME := by
    intro a; simpa using hM
  rw [HandGestureControlsV2.apply]
  by_cases hg : (c.isEnabled = false ∨ ¬(now - c.lastMouseActivity > 300))
  · rw [if_pos hg]
    exact ⟨hselfd.1, hselfd.2, hlo, hhi, habs0 _, habs0 _, hplo, hphi⟩
  · rw [if_neg hg]
    cases hgm : g.mode with
    | Zoom =>
      obtain ⟨z1, z2, z3, z4, z5, z6, _, _⟩ := applyZoom_bounds c g dt cam hmin hlo hhi
      exact ⟨z1, z2, z3, z4, by rw [z5]; exact habs0 _, by rw [z6]; exact habs0 _,
        by rw [z6]; exact hplo, by rw [z6]; exact hphi⟩
    | Orbit =>
      obtain ⟨r1, r2, r3, r4, r5, _, _⟩ := applyRotation_bounds c g dt cam hplo hphi
      refine ⟨by rw [r5]; exact hselfd.1, by rw [r5]; exact hselfd.2,
        by rw [r5]; exact hlo, by rw [r5]; exact hhi, r1, r2, r3, r4⟩
    | Idle =>
      exact ⟨hselfd.1, hselfd.2, hlo, hhi, habs0 _, habs0 _, hplo, hphi⟩

/-- Witness for C3: the bounds hold for a concrete enabled mapper applying a
Zoom snapshot with pinchDelta 0.8 for dt = 16 ms to a camera at distance 5 in
bounds [1, 10] with polar angle 1 rad. -/
theorem camera_apply_bounded_witness :
    ((0 : ℚ) < camC3.minDistance ∧ camC3.minDistance ≤ camC3.distance ∧
     camC3.distance ≤ camC3.maxDistance ∧ (0.01 : ℚ) ≤ camC3.phi ∧
     camC3.phi ≤ mathPI - 0.01) ∧
    (camC3.distance / MAX_ZOOM_SCALE_PER_FRAME ≤
        (ctlC3.apply snapC3 0.016 1000 camC3).distance ∧
     (ctlC3.apply snapC3 0.016 1000 camC3).distance ≤
        camC3.distance * MAX_ZOOM_SCALE_PER_FRAME ∧
     camC3.minDistance ≤ (ctlC3.apply snapC3 0.016 1000 camC3).distance ∧
     (ctlC3.apply snapC3 0.016 1000 camC3).distance ≤ camC3.maxDistance ∧
     |(ctlC3.apply snapC3 0.016 1000 camC3).theta - camC3.theta| ≤
        MAX_ROTATION_PER_FRAME ∧
     |(ctlC3.apply snapC3 0.016 1000 camC3).phi - camC3.phi| ≤
        MAX_ROTATION_PER_FRAME ∧
     (0.01 : ℚ) ≤ (ctlC3.apply snapC3 0.016 1000 camC3).phi ∧
     (ctlC3.apply snapC3 0.016 1000 camC3).phi ≤ mathPI - 0.01) := by
  have h1 : (0 : ℚ) < camC3.minDistance := by rw [camC3]; norm_num
  have h2 : camC3.minDistance ≤ camC3.distance := by rw [camC3]; norm_num
  have h3 : camC3.distance ≤ camC3.maxDistance := by rw [camC3]; norm_num
  have h4 : (0.01 : ℚ) ≤ camC3.phi := by rw [camC3]; norm_num
  have h5 : camC3.phi ≤ mathPI - 0.01 := by rw [camC3, mathPI]; norm_num
  exact ⟨⟨h1, h2, h3, h4, h5⟩,
    camera_apply_bounded ctlC3 snapC3 0.016 1000 camC3 h1 h2 h3 h4 h5⟩

/-- C4: majority-vote stability of the classifier.  (i) On a frame with a
hand, `recognizeFingerGestures` is the vote step on the primary hand's
extended-finger count.  (ii) The reported confidence is always the majority
gesture's frequency over the history ring buffer, and the reported stable
gesture differs from the previous one only when that frequency exceeds 0.6.
(iii) Eight consecutive frames whose raw classification is `closed_fist`,
starting from the fresh classifier, yield gesture `closed_fist` with
confidence 1.  (iv) Seven `closed_fist` frames with a single `unknown` frame
interleaved at any position `i` still yield stable `closed_fist`, confidence
0.875. -/
theorem recognizer_majority_vote_stability :
    (∀ (st : GestureRecognizer) (h : Hand) (rest : List Hand),
      st.recognizeFingerGestures (h :: rest) =
        recognizeStep st (countExtendedFingers h)) ∧
    (∀ (st : GestureRecognizer) (fc : Nat),
      (recognizeStep st fc).1.confidence =
        ((pushT st.gestureHistory (classifyGesture fc)).count
            (majorityCandidate (pushT st.gestureHistory (classifyGesture fc))) : ℚ) /
          ((pushT st.gestureHistory (classifyGesture fc)).length : ℚ) ∧
      ((recognizeStep st fc).1.gesture ≠ st.lastStableGesture →
        (recognizeStep st fc).1.confidence > 0.6)) ∧
    (∀ (h0 h1 h2 h3 h4 h5 h6 h7 : Hand) (r0 r1 r2 r3 r4 r5 r6 r7 : List Hand),
      [classifyGesture (countExtendedFingers h0), classifyGesture (countExtendedFingers h1),
       classifyGesture (countExtendedFingers h2), classifyGesture (countExtendedFingers h3),
       classifyGesture (countExtendedFingers h4), classifyGesture (countExtendedFingers h5),
       classifyGesture (countExtendedFingers h6), classifyGesture (countExtendedFingers h7)] =
        List.replicate 8 .closed_fist →
      ((((((((GestureRecognizer.init.recognizeFingerGestures (h0 :: r0)).2.recognizeFingerGestures
        (h1 :: r1)).2.recognizeFingerGestures (h2 :: r2)).2.recognizeFingerGestures
        (h3 :: r3)).2.recognizeFingerGestures (h4 :: r4)).2.recognizeFingerGestures
        (h5 :: r5)).2.recognizeFingerGestures (h6 :: r6)).2.recognizeFingerGestures
        (h7 :: r7)).1.gesture = .closed_fist ∧
      ((((((((GestureRecognizer.init.recognizeFingerGestures (h0 :: r0)).2.recognizeFingerGestures
        (h1 :: r1)).2.recognizeFingerGestures (h2 :: r2)).2.recognizeFingerGestures
        (h3 :: r3)).2.recognizeFingerGestures (h4 :: r4)).2.recognizeFingerGestures
        (h5 :: r5)).2.recognizeFingerGestures (h6 :: r6)).2.recognizeFingerGestures
        (h7 :: r7)).1.confidence = 1) ∧
    (∀ (h0 h1 h2 h3 h4 h5 h6 h7 : Hand) (r0 r1 r2 r3 r4 r5 r6 r7 : List Hand) (i : Fin 8),
      [classifyGesture (countExtendedFingers h0), classifyGesture (countExtendedFingers h1),
       classifyGesture (countExtendedFingers h2), classifyGesture (countExtendedFingers h3),
       classifyGesture (countExtendedFingers h4), classifyGesture (countExtendedFingers h5),
       classifyGesture (countExtendedFingers h6), classifyGesture (countExtendedFingers h7)] =
        (List.replicate 8 .closed_fist).set i .unknown →
      ((((((((GestureRecognizer.init.recognizeFingerGestures (h0 :: r0)).2.recognizeFingerGestures
        (h1 :: r1)).2.recognizeFingerGestures (h2 :: r2)).2.recognizeFingerGestures
        (h3 :: r3)).2.recognizeFingerGestures (h4 :: r4)).2.recognizeFingerGestures
        (h5 :: r5)).2.recognizeFingerGestures (h6 :: r6)).2.recognizeFingerGestures
        (h7 :: r7)).1.gesture = .closed_fist ∧
      ((((((((GestureRecognizer.init.recognizeFingerGestures (h0 :: r0)).2.recognizeFingerGestures
        (h1 :: r1)).2.recognizeFingerGestures (h2 :: r2)).2.recognizeFingerGestures
        (h3 :: r3)).2.recognizeFingerGestures (h4 :: r4)).2.recognizeFingerGestures
        (h5 :: r5)).2.recognizeFingerGestures (h6 :: r6)).2.recognizeFingerGestures
        (h7 :: r7)).1.confidence = 0.875) := by
  refine ⟨fun st h rest => rfl, fun st fc => ⟨rfl, ?_⟩, ?_, ?_⟩
  · intro hne
    by_cases hc : ((pushT st.gestureHistory (classifyGesture fc)).count
        (majorityCandidate (pushT st.gestureHistory (classifyGesture fc))) : ℚ) /
          ((pushT st.gestureHistory (classifyGesture fc)).length : ℚ) > 0.6
    · simpa [recognizeStep, recognizeVote] using hc
    · exfalso
      apply hne
      simp [recognizeStep, recognizeVote, if_neg hc]
  · intro h0 h1 h2 h3 h4 h5 h6 h7 r0 r1 r2 r3 r4 r5 r6 r7 heq
    simp only [List.replicate, List.cons.injEq, and_true] at heq
    obtain ⟨e0, e1, e2, e3, e4, e5, e6, e7⟩ := heq
    constructor <;>
      simp only [GestureRecognizer.recognizeFingerGestures, recognizeStep,
        e0, e1, e2, e3, e4, e5, e6, e7] <;>
      with_unfolding_all rfl
  · intro h0 h1 h2 h3 h4 h5 h6 h7 r0 r1 r2 r3 r4 r5 r6 r7 i heq
    fin_cases i <;>
      simp only [List.replicate, List.set, List.cons.injEq, and_true,
        Fin.isValue] at heq <;>
      obtain ⟨e0, e1, e2, e3, e4, e5, e6, e7⟩ := heq <;>
      constructor <;>
      simp only [GestureRecognizer.recognizeFingerGestures, recognizeStep,
        e0, e1, e2, e3, e4, e5, e6, e7] <;>
      with_unfolding_all rfl

/-- Witness for C4: eight frames of the concrete all-curled hand (raw
`closed_fist`) from the fresh classifier give confidence 1, and replacing the
first frame by the concrete three-finger hand (raw `unknown`) still gives
stable `closed_fist` with confidence 7/8 = 0.875. -/
theorem recognizer_majority_vote_stability_witness :
    ([classifyGesture (countExtendedFingers closedFistHand), classifyGesture (countExtendedFingers closedFistHand),
      classifyGesture (countExtendedFingers closedFistHand), classifyGesture (countExtendedFingers closedFistHand),
      classifyGesture (countExtendedFingers closedFistHand), classifyGesture (countExtendedFingers closedFistHand),
      classifyGesture (countExtendedFingers closedFistHand), classifyGesture (countExtendedFingers closedFistHand)] =
        List.replicate 8 .closed_fist) ∧
    ([classifyGesture (countExtendedFingers threeFingerHand), classifyGesture (countExtendedFingers closedFistHand),
      classifyGesture (countExtendedFingers closedFistHand), classifyGesture (countExtendedFingers closedFistHand),
      classifyGesture (countExtendedFingers closedFistHand), classifyGesture (countExtendedFingers closedFistHand),
      classifyGesture (countExtendedFingers closedFistHand), classifyGesture (countExtendedFingers closedFistHand)] =
        (List.replicate 8 .closed_fist).set (0 : Fin 8) .unknown) ∧
    (((((((((GestureRecognizer.init.recognizeFingerGestures [closedFistHand]).2.recognizeFingerGestures
      [closedFistHand]).2.recognizeFingerGestures [closedFistHand]).2.recognizeFingerGestures
      [closedFistHand]).2.recognizeFingerGestures [closedFistHand]).2.recognizeFingerGestures
      [closedFistHand]).2.recognizeFingerGestures [closedFistHand]).2.recognizeFingerGestures
      [closedFistHand]).1.gesture = .closed_fist ∧
     ((((((((GestureRecognizer.init.recognizeFingerGestures [closedFistHand]).2.recognizeFingerGestures
      [closedFistHand]).2.recognizeFingerGestures [closedFistHand]).2.recognizeFingerGestures
      [closedFistHand]).2.recognizeFingerGestures [closedFistHand]).2.recognizeFingerGestures
      [closedFistHand]).2.recognizeFingerGestures [closedFistHand]).2.recognizeFingerGestures
      [closedFistHand]).1.confidence = 1) ∧
    (((((((((GestureRecognizer.init.recognizeFingerGestures [threeFingerHand]).2.recognizeFingerGestures
      [closedFistHand]).2.recognizeFingerGestures [closedFistHand]).2.recognizeFingerGestures
      [closedFistHand]).2.recognizeFingerGestures [closedFistHand]).2.recognizeFingerGestures
      [closedFistHand]).2.recognizeFingerGestures [closedFistHand]).2.recognizeFingerGestures
      [closedFistHand]).1.gesture = .closed_fist ∧
     ((((((((GestureRecognizer.init.recognizeFingerGestures [threeFingerHand]).2.recognizeFingerGestures
      [closedFistHand]).2.recognizeFingerGestures [closedFistHand]).2.recognizeFingerGestures
      [closedFistHand]).2.recognizeFingerGestures [closedFistHand]).2.recognizeFingerGestures
      [closedFistHand]).2.recognizeFingerGestures [closedFistHand]).2.recognizeFingerGestures
      [closedFistHand]).1.confidence = 0.875) := by
  have hcf : [classifyGesture (countExtendedFingers closedFistHand), classifyGesture (countExtendedFingers closedFistHand),
      classifyGesture (countExtendedFingers closedFistHand), classifyGesture (countExtendedFingers closedFistHand),
      classifyGesture (countExtendedFingers closedFistHand), classifyGesture (countExtendedFingers closedFistHand),
      classifyGesture (countExtendedFingers closedFistHand), classifyGesture (countExtendedFingers closedFistHand)] =
        List.replicate 8 .closed_fist := by with_unfolding_all rfl
  have hun : [classifyGesture (countExtendedFingers threeFingerHand), classifyGesture (countExtendedFingers closedFistHand),
      classifyGesture (countExtendedFingers closedFistHand), classifyGesture (countExtendedFingers closedFistHand),
      classifyGesture (countExtendedFingers closedFistHand), classifyGesture (countExtendedFingers closedFistHand),
      classifyGesture (countExtendedFingers closedFistHand), classifyGesture (countExtendedFingers closedFistHand)] =
        (List.replicate 8 .closed_fist).set (0 : Fin 8) .unknown := by with_unfolding_all rfl
  exact ⟨hcf, hun,
    recognizer_majority_vote_stability.2.2.1 closedFistHand closedFistHand closedFistHand
      closedFistHand closedFistHand closedFistHand closedFistHand closedFistHand
      [] [] [] [] [] [] [] [] hcf,
    recognizer_majority_vote_stability.2.2.2 threeFingerHand closedFistHand closedFistHand
      closedFistHand closedFistHand closedFistHand closedFistHand closedFistHand
      [] [] [] [] [] [] [] [] 0 hun⟩

/-- C7: on a frame with at least one hand, when the recognizer's reported
stable gesture has confidence above 0.5, `open_palm` yields a snapshot with
mode Zoom and pinchDelta −0.8 and `closed_fist` yields mode Zoom and
pinchDelta +0.8; when the reported gesture is `unknown` or its confidence is
at most 0.5, the snapshot has mode Idle and pinchDelta, yaw and pitch all
zero. -/
theorem engine_gesture_to_control_mapping (st : GestureEngine) (h : Hand)
    (rest : List Hand) (tMs : ℚ) :
    ((st.gestureRecognizer.recognizeFingerGestures (h :: rest)).1.confidence > 0.5 →
      (st.gestureRecognizer.recognizeFingerGestures (h :: rest)).1.gesture = .open_palm →
      (st.ingest (h :: rest) tMs).lastSnapshot.mode = .Zoom ∧
      (st.ingest (h :: rest) tMs).lastSnapshot.pinchDelta = -0.8) ∧
    ((st.gestureRecognizer.recognizeFingerGestures (h :: rest)).1.confidence > 0.5 →
      (st.gestureRecognizer.recognizeFingerGestures (h :: rest)).1.gesture = .closed_fist →
      (st.ingest (h :: rest) tMs).lastSnapshot.mode = .Zoom ∧
      (st.ingest (h :: rest) tMs).lastSnapshot.pinchDelta = 0.8) ∧
    ((st.gestureRecognizer.recognizeFingerGestures (h :: rest)).1.gesture = .unknown ∨
      (st.gestureRecognizer.recognizeFingerGestures (h :: rest)).1.confidence ≤ 0.5 →
      (st.ingest (h :: rest) tMs).lastSnapshot.mode = .Idle ∧
      (st.ingest (h :: rest) tMs).lastSnapshot.pinchDelta = 0 ∧
      (st.ingest (h :: rest) tMs).lastSnapshot.yaw = 0 ∧
      (st.ingest (h :: rest) tMs).lastSnapshot.pitch = 0) := by
  have hne : (h :: rest : List Hand) ≠ [] := by simp
  refine ⟨?_, ?_, ?_⟩
  · intro hconf hg
    rw [GestureEngine.ingest, if_neg hne]
    simp only [GestureEngine.processFingerGestures, hg, if_pos hconf]
    simp [hg]
  · intro hconf hg
    rw [GestureEngine.ingest, if_neg hne]
    simp only [GestureEngine.processFingerGestures, hg, if_pos hconf]
    simp [hg]
  · intro hcase
    rw [GestureEngine.ingest, if_neg hne]
    rcases hcase with hg | hconf
    · simp only [GestureEngine.processFingerGestures, hg]
      by_cases hc : (st.gestureRecognizer.recognizeFingerGestures (h :: rest)).1.confidence > 0.5
      · simp [hg, if_pos hc]
      · simp [hg, if_neg hc]
    · have hc : ¬((st.gestureRecognizer.recognizeFingerGestures (h :: rest)).1.confidence > 0.5) :=
        not_lt.mpr hconf
      simp only [GestureEngine.processFingerGestures, if_neg hc]
      simp [hc]

/-- Witness for C7: a palm-primed engine maps a high-confidence `open_palm`
to Zoom/−0.8; the fresh engine maps a first `closed_fist` frame (confidence
1) to Zoom/+0.8; and a first `unknown` frame (three extended fingers) leaves
the snapshot Idle with all deltas zero. -/
theorem engine_gesture_to_control_mapping_witness :
    ((palmPrimedEngine.gestureRecognizer.recognizeFingerGestures [shortHand]).1.confidence > 0.5 ∧
     (palmPrimedEngine.gestureRecognizer.recognizeFingerGestures [shortHand]).1.gesture = .open_palm ∧
     (palmPrimedEngine.ingest [shortHand] 0).lastSnapshot.mode = .Zoom ∧
     (palmPrimedEngine.ingest [shortHand] 0).lastSnapshot.pinchDelta = -0.8) ∧
    ((GestureEngine.init.gestureRecognizer.recognizeFingerGestures [shortHand]).1.confidence > 0.5 ∧
     (GestureEngine.init.gestureRecognizer.recognizeFingerGestures [shortHand]).1.gesture = .closed_fist ∧
     (GestureEngine.init.ingest [shortHand] 0).lastSnapshot.mode = .Zoom ∧
     (GestureEngine.init.ingest [shortHand] 0).lastSnapshot.pinchDelta = 0.8) ∧
    ((GestureEngine.init.gestureRecognizer.recognizeFingerGestures [threeFingerHand]).1.gesture = .unknown ∧
     (GestureEngine.init.ingest [threeFingerHand] 0).lastSnapshot.mode = .Idle ∧
     (GestureEngine.init.ingest [threeFingerHand] 0).lastSnapshot.pinchDelta = 0 ∧
     (GestureEngine.init.ingest [threeFingerHand] 0).lastSnapshot.yaw = 0 ∧
     (GestureEngine.init.ingest [threeFingerHand] 0).lastSnapshot.pitch = 0) := by
  have hc1 : (palmPrimedEngine.gestureRecognizer.recognizeFingerGestures [shortHand]).1.confidence
      = 7/8 := by with_unfolding_all rfl
  have hg1 : (palmPrimedEngine.gestureRecognizer.recognizeFingerGestures [shortHand]).1.gesture
      = .open_palm := by with_unfolding_all rfl
  have hconf1 : (palmPrimedEngine.gestureRecognizer.recognizeFingerGestures [shortHand]).1.confidence
      > 0.5 := by rw [hc1]; norm_num
  have hc2 : (GestureEngine.init.gestureRecognizer.recognizeFingerGestures [shortHand]).1.confidence
      = 1 := by with_unfolding_all rfl
  have hg2 : (GestureEngine.init.gestureRecognizer.recognizeFingerGestures [shortHand]).1.gesture
      = .closed_fist := by with_unfolding_all rfl
  have hconf2 : (GestureEngine.init.gestureRecognizer.recognizeFingerGestures [shortHand]).1.confidence
      > 0.5 := by rw [hc2]; norm_num
  have hg3 : (GestureEngine.init.gestureRecognizer.recognizeFingerGestures [threeFingerHand]).1.gesture
      = .unknown := by with_unfolding_all rfl
  have o1 := (engine_gesture_to_control_mapping palmPrimedEngine shortHand [] 0).1 hconf1 hg1
  have o2 := (engine_gesture_to_control_mapping GestureEngine.init shortHand [] 0).2.1 hconf2 hg2
  have o3 := (engine_gesture_to_control_mapping GestureEngine.init threeFingerHand [] 0).2.2
    (Or.inl hg3)
  exact ⟨⟨hconf1, hg1, o1.1, o1.2⟩, ⟨hconf2, hg2, o2.1, o2.2⟩,
    ⟨hg3, o3.1, o3.2.1, o3.2.2.1, o3.2.2.2⟩⟩

/-- C8 (amended): (i) when the reported stable gesture is `one_finger` with
confidence above 0.5 and a previous fingertip sample exists, the snapshot has
mode Orbit and yaw equal to the index-fingertip horizontal velocity
`(tip.x − lastX) / max 0.001 ((tMs − lastT)/1000)` times gain 2, clamped to
±π, and the tracker is updated to the new sample; (ii) on a frame with at
least one hand whose reported gesture is not `one_finger` the fingertip
tracker is cleared (empty frames do not clear it — see the counterexample);
(iii) whenever the tracker holds no previous sample the produced snapshot has
yaw 0 — in particular on the first one-finger frame after any other gesture
observed with a hand present; (iv) the worked example: index tip moving
0.40 → 0.45 over 100 ms gives yaw = 1 rad/s and mode Orbit. -/
theorem one_finger_yaw_velocity_tracking :
    (∀ (st : GestureEngine) (h : Hand) (rest : List Hand) (tMs : ℚ)
      (tip : Landmark) (lx lt : ℚ),
      (st.gestureRecognizer.recognizeFingerGestures (h :: rest)).1.confidence > 0.5 →
      (st.gestureRecognizer.recognizeFingerGestures (h :: rest)).1.gesture = .one_finger →
      h.get? 8 = some tip → st.lastIndexTipX = some lx → st.lastTimestampMs = some lt →
      (st.ingest (h :: rest) tMs).lastSnapshot.mode = .Orbit ∧
      (st.ingest (h :: rest) tMs).lastSnapshot.yaw =
        max (-mathPI) (min mathPI ((tip.x - lx) / max 0.001 ((tMs - lt) / 1000) * 2)) ∧
      (st.ingest (h :: rest) tMs).lastIndexTipX = some tip.x ∧
      (st.ingest (h :: rest) tMs).lastTimestampMs = some tMs) ∧
    (∀ (st : GestureEngine) (h : Hand) (rest : List Hand) (tMs : ℚ),
      (st.gestureRecognizer.recognizeFingerGestures (h :: rest)).1.gesture ≠ .one_finger →
      (st.ingest (h :: rest) tMs).lastIndexTipX = none) ∧
    (∀ (st : GestureEngine) (h : Hand) (rest : List Hand) (tMs : ℚ),
      st.lastIndexTipX = none →
      (st.ingest (h :: rest) tMs).lastSnapshot.yaw = 0) ∧
    ((trackerPrimedEngine.ingest [oneFingerHand 0.45] 100).lastSnapshot.yaw = 1 ∧
     (trackerPrimedEngine.ingest [oneFingerHand 0.45] 100).lastSnapshot.mode = .Orbit) := by
  refine ⟨?_, ?_, ?_, by with_unfolding_all rfl, by with_unfolding_all rfl⟩
  · intro st h rest tMs tip lx lt hconf hg htip hlx hlt
    have hne : (h :: rest : List Hand) ≠ [] := by simp
    rw [GestureEngine.ingest, if_neg hne]
    rw [List.get?_eq_getElem?] at htip
    simp only [GestureEngine.processFingerGestures, hg, if_pos hconf]
    simp [hg, List.headD, htip, hlx, hlt]
    norm_num
  · intro st h rest tMs hg
    have hne : (h :: rest : List Hand) ≠ [] := by simp
    rw [GestureEngine.ingest, if_neg hne]
    simp only [GestureEngine.processFingerGestures]
    simp [hg]
  · intro st h rest tMs hlx
    have hne : (h :: rest : List Hand) ≠ [] := by simp
    rw [GestureEngine.ingest, if_neg hne]
    simp only [GestureEngine.processFingerGestures]
    rcases hgg : (st.gestureRecognizer.recognizeFingerGestures (h :: rest)).1.gesture <;>
      by_cases hc : (st.gestureRecognizer.recognizeFingerGestures (h :: rest)).1.confidence > 0.5 <;>
      simp [hgg, hc, hlx] <;>
      (split <;> simp)

/-- Counterexample for C8 as stated: after a one-finger frame at t = 0 the
empty frame at t = 100 sets the current (reported) gesture to `unknown` — not
`one_finger` — yet the fingertip tracker is not reset; the next one-finger
frame at t = 10100 is the first one-finger frame after that other gesture and
produces yaw = 10/101 ≠ 0 from the stale sample. -/
theorem one_finger_tracker_not_reset_counterexample :
    ((GestureEngine.init.ingest [oneFingerHand 0.4] 0).ingest [] 100).lastFingerGesture.gesture
      = .unknown ∧
    ((GestureEngine.init.ingest [oneFingerHand 0.4] 0).ingest [] 100).lastIndexTipX
      = some 0.4 ∧
    (((GestureEngine.init.ingest [oneFingerHand 0.4] 0).ingest [] 100).ingest
        [oneFingerHand 0.9] 10100).lastFingerGesture.gesture = .one_finger ∧
    (((GestureEngine.init.ingest [oneFingerHand 0.4] 0).ingest [] 100).ingest
        [oneFingerHand 0.9] 10100).lastSnapshot.yaw = 10 / 101 ∧
    (10 / 101 : ℚ) ≠ 0 := by
  refine ⟨by with_unfolding_all rfl, by with_unfolding_all rfl,
    by with_unfolding_all rfl, by with_unfolding_all rfl, by norm_num⟩

/-- Witness for C8: the tracker-primed engine (previous sample x = 0.4 at
t = 0) fed the concrete one-finger hand with index tip at x = 0.45 at
t = 100 ms satisfies every hypothesis of part (i), whose conclusion then
gives mode Orbit with the clamped-velocity yaw. -/
theorem one_finger_yaw_velocity_tracking_witness :
    ((trackerPrimedEngine.gestureRecognizer.recognizeFingerGestures [oneFingerHand 0.45]).1.confidence > 0.5 ∧
     (trackerPrimedEngine.gestureRecognizer.recognizeFingerGestures [oneFingerHand 0.45]).1.gesture = .one_finger ∧
     (oneFingerHand 0.45).get? 8 = some (L 0.45 0.3) ∧
     trackerPrimedEngine.lastIndexTipX = some 0.4 ∧
     trackerPrimedEngine.lastTimestampMs = some 0) ∧
    ((trackerPrimedEngine.ingest [oneFingerHand 0.45] 100).lastSnapshot.mode = .Orbit ∧
     (trackerPrimedEngine.ingest [oneFingerHand 0.45] 100).lastSnapshot.yaw =
       max (-mathPI) (min mathPI (((L 0.45 0.3).x - 0.4) / max 0.001 ((100 - (0:ℚ)) / 1000) * 2)) ∧
     (trackerPrimedEngine.ingest [oneFingerHand 0.45] 100).lastIndexTipX = some (L 0.45 0.3).x ∧
     (trackerPrimedEngine.ingest [oneFingerHand 0.45] 100).lastTimestampMs = some 100) := by
  have h1 : (trackerPrimedEngine.gestureRecognizer.recognizeFingerGestures [oneFingerHand 0.45]).1.confidence
      = 1 := by with_unfolding_all rfl
  have hc : (trackerPrimedEngine.gestureRecognizer.recognizeFingerGestures [oneFingerHand 0.45]).1.confidence
      > 0.5 := by rw [h1]; norm_num
  have hg : (trackerPrimedEngine.gestureRecognizer.recognizeFingerGestures [oneFingerHand 0.45]).1.gesture
      = .one_finger := by with_unfolding_all rfl
  have htip : (oneFingerHand 0.45).get? 8 = some (L 0.45 0.3) := by with_unfolding_all rfl
  have hlx : trackerPrimedEngine.lastIndexTipX = some 0.4 := by with_unfolding_all rfl
  have hlt : trackerPrimedEngine.lastTimestampMs = some 0 := by with_unfolding_all rfl
  exact ⟨⟨hc, hg, htip, hlx, hlt⟩,
    one_finger_yaw_velocity_tracking.1 trackerPrimedEngine (oneFingerHand 0.45) [] 100
      (L 0.45 0.3) 0.4 0 hc hg htip hlx hlt⟩

/-- C9: (i) an `ingest` call emits the voice-toggle event only when more than
VOICE_TOGGLE_COOLDOWN_MS = 1200 ms have elapsed since `lastVoiceToggleAt`
(the previous emission time, initially 0), and an emission appends exactly
one event stamped `tMs` and records `tMs` as the new emission time; an empty
frame never emits.  (ii) A frame whose reported stable gesture is
`two_fingers` with confidence above 0.5 produces a snapshot with mode Idle
and no camera motion (pinchDelta, yaw, pitch all 0), emitting exactly when
the cooldown has elapsed and doing nothing to the event channel otherwise.
(iii) From an engine whose history is primed with `two_fingers` and whose
last emission time is 0, frames at t = 2000 and t = 2500 (500 ms apart) emit
exactly once, while frames at t = 2000 and t = 3300 (1300 ms apart) emit
exactly twice. -/
theorem two_fingers_voice_toggle_debounce :
    (∀ (st : GestureEngine) (h : Hand) (rest : List Hand) (tMs : ℚ),
      (st.ingest (h :: rest) tMs).events ≠ st.events →
      (1200 < tMs - st.lastVoiceToggleAt ∧
       (st.ingest (h :: rest) tMs).events = st.events ++ [tMs] ∧
       (st.ingest (h :: rest) tMs).lastVoiceToggleAt = tMs)) ∧
    (∀ (st : GestureEngine) (tMs : ℚ), (st.ingest [] tMs).events = st.events) ∧
    (∀ (st : GestureEngine) (h : Hand) (rest : List Hand) (tMs : ℚ),
      (st.gestureRecognizer.recognizeFingerGestures (h :: rest)).1.gesture = .two_fingers →
      (st.gestureRecognizer.recognizeFingerGestures (h :: rest)).1.confidence > 0.5 →
      ((st.ingest (h :: rest) tMs).lastSnapshot.mode = .Idle ∧
       (st.ingest (h :: rest) tMs).lastSnapshot.pinchDelta = 0 ∧
       (st.ingest (h :: rest) tMs).lastSnapshot.yaw = 0 ∧
       (st.ingest (h :: rest) tMs).lastSnapshot.pitch = 0) ∧
      (1200 < tMs - st.lastVoiceToggleAt →
        (st.ingest (h :: rest) tMs).events = st.events ++ [tMs]) ∧
      (¬(1200 < tMs - st.lastVoiceToggleAt) →
        (st.ingest (h :: rest) tMs).events = st.events ∧
        (st.ingest (h :: rest) tMs).lastVoiceToggleAt = st.lastVoiceToggleAt)) ∧
    ((voicePrimedEngine.ingest [shortHand] 2000).events = [2000] ∧
     ((voicePrimedEngine.ingest [shortHand] 2000).ingest [shortHand] 2500).events = [2000] ∧
     ((voicePrimedEngine.ingest [shortHand] 2000).ingest [shortHand] 3300).events = [2000, 3300]) := by
  refine ⟨?_, ?_, ?_, by with_unfolding_all rfl, by with_unfolding_all rfl,
    by with_unfolding_all rfl⟩
  · intro st h rest tMs hneq
    have hne : (h :: rest : List Hand) ≠ [] := by simp
    rw [GestureEngine.ingest, if_neg hne] at hneq ⊢
    simp only [GestureEngine.processFingerGestures] at hneq ⊢
    rcases hgg : (st.gestureRecognizer.recognizeFingerGestures (h :: rest)).1.gesture <;>
      by_cases hc : (st.gestureRecognizer.recognizeFingerGestures (h :: rest)).1.confidence > 0.5 <;>
      simp [hgg, hc] at hneq <;>
      by_cases hcd : 1200 < tMs - st.lastVoiceToggleAt <;>
      simp [hgg, hc, hcd] at hneq ⊢ <;>
      first
        | exact hcd
        | (rcases hh : h[8]? with _ | tip <;> simp [hh] at hneq)
  · intro st tMs
    rw [GestureEngine.ingest, if_pos rfl]
  · intro st h rest tMs hg hc
    have hne : (h :: rest : List Hand) ≠ [] := by simp
    rw [GestureEngine.ingest, if_neg hne]
    simp only [GestureEngine.processFingerGestures]
    by_cases hcd : 1200 < tMs - st.lastVoiceToggleAt <;>
      simp [hg, hc, hcd]

/-- Witness for C9: the two-fingers-primed engine fed a hand frame at
t = 2000 reports stable `two_fingers` with confidence 7/8 > 0.5; part (ii) of
the debounce theorem then gives the Idle no-motion snapshot and the emission
(2000 − 0 > 1200). -/
theorem two_fingers_voice_toggle_debounce_witness :
    ((voicePrimedEngine.gestureRecognizer.recognizeFingerGestures [shortHand]).1.gesture = .two_fingers ∧
     (voicePrimedEngine.gestureRecognizer.recognizeFingerGestures [shortHand]).1.confidence > 0.5) ∧
    (((voicePrimedEngine.ingest [shortHand] 2000).lastSnapshot.mode = .Idle ∧
      (voicePrimedEngine.ingest [shortHand] 2000).lastSnapshot.pinchDelta = 0 ∧
      (voicePrimedEngine.ingest [shortHand] 2000).lastSnapshot.yaw = 0 ∧
      (voicePrimedEngine.ingest [shortHand] 2000).lastSnapshot.pitch = 0) ∧
     (1200 < (2000 : ℚ) - voicePrimedEngine.lastVoiceToggleAt →
       (voicePrimedEngine.ingest [shortHand] 2000).events =
         voicePrimedEngine.events ++ [2000]) ∧
     (¬(1200 < (2000 : ℚ) - voicePrimedEngine.lastVoiceToggleAt) →
       (voicePrimedEngine.ingest [shortHand] 2000).events = voicePrimedEngine.events ∧
       (voicePrimedEngine.ingest [shortHand] 2000).lastVoiceToggleAt =
         voicePrimedEngine.lastVoiceToggleAt)) := by
  have hg : (voicePrimedEngine.gestureRecognizer.recognizeFingerGestures [shortHand]).1.gesture
      = .two_fingers := by with_unfolding_all rfl
  have h1 : (voicePrimedEngine.gestureRecognizer.recognizeFingerGestures [shortHand]).1.confidence
      = 7/8 := by with_unfolding_all rfl
  have hc : (voicePrimedEngine.gestureRecognizer.recognizeFingerGestures [shortHand]).1.confidence
      > 0.5 := by rw [h1]; norm_num
  exact ⟨⟨hg, hc⟩,
    two_fingers_voice_toggle_debounce.2.2.1 voicePrimedEngine shortHand [] 2000 hg hc⟩

/-- C6: `calibrateNeutral` returns false and mutates nothing when no hand is
present (also when the primary hand is malformed, i.e. shorter than 21
landmarks); with a well-formed hand present it overwrites the calibration
with the computed neutral yaw/pitch/roll and the hand baseline, resets the
Signal Filter and the Mode State Machine (and the previous-values cache), and
returns true — after which the state machine's mode is Idle and the filter's
next `filter(x, t)` call behaves as a fresh first call, returning its input
unchanged on every channel. -/
theorem calibrateNeutral_requires_hand_and_resets
    (orient : HandFrame → ℚ × ℚ × ℚ) (st : GestureEngine) (h : Hand)
    (rest : List Hand) :
    (GestureEngine.calibrateNeutral orient st [] = (false, st)) ∧
    (h.length < 21 →
      GestureEngine.calibrateNeutral orient st (h :: rest) = (false, st)) ∧
    (21 ≤ h.length →
      (GestureEngine.calibrateNeutral orient st (h :: rest)).1 = true ∧
      (GestureEngine.calibrateNeutral orient st (h :: rest)).2.calibration =
        ⟨(orient ⟨lmAt h 0, lmAt h 4, lmAt h 5, lmAt h 8, lmAt h 9, lmAt h 17⟩).1,
         (orient ⟨lmAt h 0, lmAt h 4, lmAt h 5, lmAt h 8, lmAt h 9, lmAt h 17⟩).2.1,
         (orient ⟨lmAt h 0, lmAt h 4, lmAt h 5, lmAt h 8, lmAt h 9, lmAt h 17⟩).2.2,
         calculateHandBaseline ⟨lmAt h 0, lmAt h 4, lmAt h 5, lmAt h 8, lmAt h 9, lmAt h 17⟩⟩ ∧
      (GestureEngine.calibrateNeutral orient st (h :: rest)).2.stateMachine =
        ⟨.Idle, 0, 0⟩ ∧
      (GestureEngine.calibrateNeutral orient st (h :: rest)).2.stateMachine.currentMode =
        .Idle ∧
      (GestureEngine.calibrateNeutral orient st (h :: rest)).2.filter = st.filter.reset ∧
      (GestureEngine.calibrateNeutral orient st (h :: rest)).2.previousValues = none ∧
      (∀ x t : ℚ,
        ((GestureEngine.calibrateNeutral orient st (h :: rest)).2.filter.filterPinch x t).1 = x) ∧
      (∀ yw pt rl t : ℚ,
        ((GestureEngine.calibrateNeutral orient st (h :: rest)).2.filter.filterOrientation yw pt rl t).1 =
          (yw, pt, rl))) := by
  have hne : (h :: rest : List Hand) ≠ [] := by simp
  refine ⟨rfl, ?_, ?_⟩
  · intro hlen
    rw [GestureEngine.calibrateNeutral, if_neg hne]
    simp [extractHandFrame, if_pos hlen]
  · intro hlen
    rw [GestureEngine.calibrateNeutral, if_neg hne]
    simp only [List.headD_cons, extractHandFrame, if_neg (by omega : ¬h.length < 21)]
    refine ⟨by trivial, by trivial, by trivial, by trivial, by trivial, by trivial, ?_, ?_⟩
    · intro x t
      rw [GestureFilter.filterPinch]
      simp only [GestureFilter.reset]
      rw [OneEuroFilter.filter_uninit _ _ _ (by rw [OneEuroFilter.reset])]
    · intro yw pt rl t
      rw [GestureFilter.filterOrientation]
      simp only [GestureFilter.reset]
      rw [OneEuroFilter.filter_uninit _ _ _ (by rw [OneEuroFilter.reset]),
        OneEuroFilter.filter_uninit _ _ _ (by rw [OneEuroFilter.reset]),
        OneEuroFilter.filter_uninit _ _ _ (by rw [OneEuroFilter.reset])]

/-- Witness for C6 at a concrete input: calibrating the fresh engine with the
concrete 21-landmark hand succeeds, stores the computed orientation and
baseline, and resets the filter and state machine. -/
theorem calibrateNeutral_requires_hand_and_resets_witness :
    (21 ≤ closedFistHand.length) ∧
    ((GestureEngine.calibrateNeutral orientC6 GestureEngine.init [closedFistHand]).1 = true ∧
     (GestureEngine.calibrateNeutral orientC6 GestureEngine.init [closedFistHand]).2.calibration =
       ⟨(orientC6 ⟨lmAt closedFistHand 0, lmAt closedFistHand 4, lmAt closedFistHand 5,
           lmAt closedFistHand 8, lmAt closedFistHand 9, lmAt closedFistHand 17⟩).1,
        (orientC6 ⟨lmAt closedFistHand 0, lmAt closedFistHand 4, lmAt closedFistHand 5,
           lmAt closedFistHand 8, lmAt closedFistHand 9, lmAt closedFistHand 17⟩).2.1,
        (orientC6 ⟨lmAt closedFistHand 0, lmAt closedFistHand 4, lmAt closedFistHand 5,
           lmAt closedFistHand 8, lmAt closedFistHand 9, lmAt closedFistHand 17⟩).2.2,
        calculateHandBaseline ⟨lmAt closedFistHand 0, lmAt closedFistHand 4, lmAt closedFistHand 5,
           lmAt closedFistHand 8, lmAt closedFistHand 9, lmAt closedFistHand 17⟩⟩ ∧
     (GestureEngine.calibrateNeutral orientC6 GestureEngine.init [closedFistHand]).2.stateMachine =
       ⟨.Idle, 0, 0⟩ ∧
     (GestureEngine.calibrateNeutral orientC6 GestureEngine.init [closedFistHand]).2.stateMachine.currentMode =
       .Idle ∧
     (GestureEngine.calibrateNeutral orientC6 GestureEngine.init [closedFistHand]).2.filter =
       GestureEngine.init.filter.reset ∧
     (GestureEngine.calibrateNeutral orientC6 GestureEngine.init [closedFistHand]).2.previousValues = none ∧
     (∀ x t : ℚ,
       ((GestureEngine.calibrateNeutral orientC6 GestureEngine.init [closedFistHand]).2.filter.filterPinch x t).1 = x) ∧
     (∀ yw pt rl t : ℚ,
       ((GestureEngine.calibrateNeutral orientC6 GestureEngine.init [closedFistHand]).2.filter.filterOrientation yw pt rl t).1 =
         (yw, pt, rl))) :=
  ⟨by decide,
   (calibrateNeutral_requires_hand_and_resets orientC6 GestureEngine.init closedFistHand []).2.2
     (by decide)⟩

/-- `pushT` as a drop of the appended list (for histories within capacity). -/
theorem pushT_eq_drop (l : List FingerGesture) (g : FingerGesture)
    (hl : l.length ≤ 8) :
    pushT l g = (l ++ [g]).drop (l.length + 1 - 8) := by
  rw [pushT]
  by_cases h : (l ++ [g]).length > 8
  · rw [if_pos h]
    simp at h
    have : l.length + 1 - 8 = 1 := by omega
    rw [this]
  · rw [if_neg h]
    simp at h
    have : l.length + 1 - 8 = 0 := by omega
    rw [this, List.drop_zero]

/-- `pushT` keeps the history within capacity. -/
theorem pushT_length (l : List FingerGesture) (g : FingerGesture)
    (hl : l.length ≤ 8) : (pushT l g).length = min (l.length + 1) 8 := by
  rw [pushT_eq_drop l g hl, List.length_drop, List.length_append]
  simp only [List.length_singleton]
  omega

/-- Closed form of repeatedly pushing the same gesture: the buffer is the
appended list with the overflow dropped from the front. -/
theorem pushT_foldl_replicate (k : Nat) (l : List FingerGesture)
    (g : FingerGesture) (hl : l.length ≤ 8) :
    (List.replicate k g).foldl pushT l =
      (l ++ List.replicate k g).drop (l.length + k - 8) := by
  induction k generalizing l with
  | zero =>
    have h0 : l.length + 0 - 8 = 0 := by omega
    simp only [List.replicate_zero, List.foldl_nil, List.append_nil, h0, List.drop_zero]
  | succ n ih =>
    rw [List.replicate_succ, List.foldl_cons,
      ih (pushT l g) (by rw [pushT_length l g hl]; omega),
      pushT_length l g hl, pushT_eq_drop l g hl,
      ← List.drop_append_of_le_length (by rw [List.length_append]; simp; omega),
      List.drop_drop]
    rw [List.append_assoc]
    have harr : ([g] : List FingerGesture) ++ List.replicate n g = g :: List.replicate n g := rfl
    rw [harr]
    congr 1
    omega

/-- After eight consecutive pushes of `g` the buffer holds exactly eight
copies of `g`. -/
theorem pushT_foldl_replicate_eight (l : List FingerGesture) (g : FingerGesture)
    (hl : l.length ≤ 8) :
    (List.replicate 8 g).foldl pushT l = List.replicate 8 g := by
  rw [pushT_foldl_replicate 8 l g hl]
  have : l.length + 8 - 8 = l.length := by omega
  rw [this, List.drop_left]

/-- On a frame with a hand, `ingest` stores the recognizer result: the new
recognizer state and the reported gesture state. -/
theorem ingest_hands_recognizer (st : GestureEngine) (h : Hand)
    (rest : List Hand) (tMs : ℚ) :
    (st.ingest (h :: rest) tMs).gestureRecognizer =
      (st.gestureRecognizer.recognizeFingerGestures (h :: rest)).2 ∧
    (st.ingest (h :: rest) tMs).lastFingerGesture =
      (st.gestureRecognizer.recognizeFingerGestures (h :: rest)).1 := by
  have hne : (h :: rest : List Hand) ≠ [] := by simp
  rw [GestureEngine.ingest, if_neg hne]
  simp only [GestureEngine.processFingerGestures]
  constructor <;>
    (rcases hgg : (st.gestureRecognizer.recognizeFingerGestures (h :: rest)).1.gesture <;>
      by_cases hc : (st.gestureRecognizer.recognizeFingerGestures (h :: rest)).1.confidence > 0.5 <;>
      simp [hgg, hc] <;>
      (split <;> simp))

/-- A hand with fewer than 21 landmarks counts zero extended fingers. -/
theorem countExtendedFingers_malformed (h : Hand) (hlen : h.length < 21) :
    countExtendedFingers h = 0 := by
  rw [countExtendedFingers, if_pos hlen]

/-- The history after any number of malformed-hand ingests is the repeated
push of `closed_fist` into the starting history. -/
theorem fold_malformed_hist (h : Hand) (rest : List Hand) (hlen : h.length < 21)
    (ts : List ℚ) (st : GestureEngine) :
    ((ts.foldl (fun s t => GestureEngine.ingest s (h :: rest) t) st)).gestureRecognizer.gestureHistory =
      (List.replicate ts.length FingerGesture.closed_fist).foldl pushT
        st.gestureRecognizer.gestureHistory := by
  induction ts generalizing st with
  | nil => rfl
  | cons t ts ih =>
    rw [List.foldl_cons, ih, List.length_cons, List.replicate_succ, List.foldl_cons]
    congr 2
    rw [(ingest_hands_recognizer st h rest t).1]
    show (recognizeStep st.gestureRecognizer (countExtendedFingers h)).2.gestureHistory = _
    rw [countExtendedFingers_malformed h hlen]
    simp [recognizeStep, recognizeVote, classifyGesture]

/-- A vote step whose push fills the buffer with eight `closed_fist` reports
stable `closed_fist` at confidence 1. -/
theorem recognizeStep_full_fist (st0 : GestureRecognizer)
    (hh : pushT st0.gestureHistory .closed_fist = List.replicate 8 .closed_fist) :
    (recognizeStep st0 0).1 = ⟨.closed_fist, 0, 1, true⟩ := by
  have hmaj : majorityCandidate (List.replicate 8 .closed_fist) = .closed_fist := by
    with_unfolding_all rfl
  simp only [recognizeStep, recognizeVote, classifyGesture, hh, hmaj,
    List.count_replicate, List.length_replicate]
  norm_num

/-- A frame whose reported gesture is `closed_fist` above threshold yields
the zoom-in snapshot. -/
theorem ingest_fist_snapshot (st : GestureEngine) (h : Hand) (rest : List Hand)
    (tMs : ℚ)
    (hg : (st.gestureRecognizer.recognizeFingerGestures (h :: rest)).1.gesture = .closed_fist)
    (hc : (st.gestureRecognizer.recognizeFingerGestures (h :: rest)).1.confidence > 0.5) :
    (st.ingest (h :: rest) tMs).lastSnapshot.mode = .Zoom ∧
    (st.ingest (h :: rest) tMs).lastSnapshot.pinchDelta = 0.8 ∧
    (st.ingest (h :: rest) tMs).lastSnapshot.pinch = 0.9 := by
  have hne : (h :: rest : List Hand) ≠ [] := by simp
  rw [GestureEngine.ingest, if_neg hne]
  simp only [GestureEngine.processFingerGestures, hg, if_pos hc]
  simp [hg]

/-- C10: a frame whose primary hand has fewer than 21 landmarks is counted as
zero extended fingers and recorded in the history as raw `closed_fist` (not
`unknown`); when such malformed frames persist — eight consecutive ingests
from any engine state whose history is within capacity — the stable gesture
converges to `closed_fist` with confidence 1, and the engine reports
mode Zoom with pinchDelta +0.8 (and pinch 0.9): a zoom-in command for a hand
it never fully observed. -/
theorem malformed_hand_forces_zoom :
    (∀ h : Hand, h.length < 21 →
      countExtendedFingers h = 0 ∧
      classifyGesture (countExtendedFingers h) = .closed_fist) ∧
    (∀ (st : GestureEngine) (h : Hand) (rest : List Hand) (tMs : ℚ),
      h.length < 21 →
      (st.ingest (h :: rest) tMs).gestureRecognizer.gestureHistory =
        pushT st.gestureRecognizer.gestureHistory .closed_fist) ∧
    (∀ (st : GestureEngine) (h : Hand) (rest : List Hand) (ts : List ℚ) (tLast : ℚ),
      h.length < 21 → ts.length = 7 →
      st.gestureRecognizer.gestureHistory.length ≤ 8 →
      ((ts.foldl (fun s t => GestureEngine.ingest s (h :: rest) t) st).ingest
          (h :: rest) tLast).lastFingerGesture = ⟨.closed_fist, 0, 1, true⟩ ∧
      ((ts.foldl (fun s t => GestureEngine.ingest s (h :: rest) t) st).ingest
          (h :: rest) tLast).lastSnapshot.mode = .Zoom ∧
      ((ts.foldl (fun s t => GestureEngine.ingest s (h :: rest) t) st).ingest
          (h :: rest) tLast).lastSnapshot.pinchDelta = 0.8 ∧
      ((ts.foldl (fun s t => GestureEngine.ingest s (h :: rest) t) st).ingest
          (h :: rest) tLast).lastSnapshot.pinch = 0.9) := by
  refine ⟨?_, ?_, ?_⟩
  · intro h hlen
    rw [countExtendedFingers_malformed h hlen]
    exact ⟨rfl, rfl⟩
  · intro st h rest tMs hlen
    rw [(ingest_hands_recognizer st h rest tMs).1]
    show (recognizeStep st.gestureRecognizer (countExtendedFingers h)).2.gestureHistory = _
    rw [countExtendedFingers_malformed h hlen]
    simp [recognizeStep, recognizeVote, classifyGesture]
  · intro st h rest ts tLast hlen hts hcap
    set e7 := ts.foldl (fun s t => GestureEngine.ingest s (h :: rest) t) st with he7
    have hist7 : e7.gestureRecognizer.gestureHistory =
        (List.replicate 7 FingerGesture.closed_fist).foldl pushT
          st.gestureRecognizer.gestureHistory := by
      rw [he7, fold_malformed_hist h rest hlen ts st, hts]
    have hpush : pushT e7.gestureRecognizer.gestureHistory .closed_fist =
        List.replicate 8 .closed_fist := by
      rw [hist7]
      have h1 : pushT (List.foldl pushT st.gestureRecognizer.gestureHistory
            (List.replicate 7 FingerGesture.closed_fist)) FingerGesture.closed_fist =
          List.foldl pushT st.gestureRecognizer.gestureHistory
            (List.replicate 7 FingerGesture.closed_fist ++ [FingerGesture.closed_fist]) := by
        simp only [List.foldl_append, List.foldl_cons, List.foldl_nil]
      rw [h1, ← List.replicate_succ']
      exact pushT_foldl_replicate_eight st.gestureRecognizer.gestureHistory _ hcap
    have hfg : (e7.gestureRecognizer.recognizeFingerGestures (h :: rest)).1 =
        ⟨.closed_fist, 0, 1, true⟩ := by
      show (recognizeStep e7.gestureRecognizer (countExtendedFingers h)).1 = _
      rw [countExtendedFingers_malformed h hlen]
      exact recognizeStep_full_fist e7.gestureRecognizer hpush
    have hg : (e7.gestureRecognizer.recognizeFingerGestures (h :: rest)).1.gesture =
        .closed_fist := by rw [hfg]
    have hc : (e7.gestureRecognizer.recognizeFingerGestures (h :: rest)).1.confidence
        > 0.5 := by rw [hfg]; norm_num
    have hsnap := ingest_fist_snapshot e7 h rest tLast hg hc
    have hlf := (ingest_hands_recognizer e7 h rest tLast).2
    exact ⟨by rw [hlf, hfg], hsnap.1, hsnap.2.1, hsnap.2.2⟩

/-- Witness for C10: eight consecutive single-landmark frames fed to an
engine whose history starts with three non-fist entries end in stable
`closed_fist` at confidence 1 and a Zoom/+0.8 snapshot. -/
theorem malformed_hand_forces_zoom_witness :
    (shortHand.length < 21 ∧
     ([(30 : ℚ), 60, 90, 120, 150, 180, 210] : List ℚ).length = 7 ∧
     malformedPrimedEngine.gestureRecognizer.gestureHistory.length ≤ 8) ∧
    ((([(30 : ℚ), 60, 90, 120, 150, 180, 210].foldl
          (fun s t => GestureEngine.ingest s (shortHand :: []) t)
          malformedPrimedEngine).ingest (shortHand :: []) 240).lastFingerGesture =
        ⟨.closed_fist, 0, 1, true⟩ ∧
     (([(30 : ℚ), 60, 90, 120, 150, 180, 210].foldl
          (fun s t => GestureEngine.ingest s (shortHand :: []) t)
          malformedPrimedEngine).ingest (shortHand :: []) 240).lastSnapshot.mode = .Zoom ∧
     (([(30 : ℚ), 60, 90, 120, 150, 180, 210].foldl
          (fun s t => GestureEngine.ingest s (shortHand :: []) t)
          malformedPrimedEngine).ingest (shortHand :: []) 240).lastSnapshot.pinchDelta = 0.8 ∧
     (([(30 : ℚ), 60, 90, 120, 150, 180, 210].foldl
          (fun s t => GestureEngine.ingest s (shortHand :: []) t)
          malformedPrimedEngine).ingest (shortHand :: []) 240).lastSnapshot.pinch = 0.9) := by
  have h1 : shortHand.length < 21 := by decide
  have h2 : ([(30 : ℚ), 60, 90, 120, 150, 180, 210] : List ℚ).length = 7 := by decide
  have h3 : malformedPrimedEngine.gestureRecognizer.gestureHistory.length ≤ 8 := by decide
  exact ⟨⟨h1, h2, h3⟩,
    malformed_hand_forces_zoom.2.2 malformedPrimedEngine shortHand []
      [30, 60, 90, 120, 150, 180, 210] 240 h1 h2 h3⟩
